import Mathlib

/-!
Verification of the Stylist recommendation engine
(services/recommendation_service.py, services/style_analysis_service.py).

Python floats are modelled by `Rat` (all constants in the engine are decimal
literals, and the claims under scrutiny only concern exact constants and
comparisons).  Python dicts are modelled by insertion-ordered association
lists with overwrite-on-update (`setP`), matching dict semantics for lookup.
Python `None`-able strings are `Option String`; Python truthiness of a string
(`if s:`) is `s ≠ ""`, and truthiness of an optional string is captured by
`optTruthy`.  `str.lower()` is modelled by `strLower` (defined over the
character list so that it evaluates inside the kernel).  Text of user-facing
message strings is reproduced except that apostrophes are elided; no claim
depends on the exact message text, only on identity and substrings such as
the celebrity name, which are preserved.
-/

/-- Python `str.lower()`. -/
def strLower (s : String) : String := ⟨s.data.map Char.toLower⟩

/-- Python truthiness of an `Optional[str]`: `None` and `""` are falsy. -/
def optTruthy : Option String → Bool
  | none => false
  | some s => !(s == "")

/-- Python substring test `needle in hay` on strings. -/
def substrOf (needle hay : String) : Bool :=
  decide (needle.toList <:+: hay.toList)

/-- A style profile: Python `Dict[str, float]`, as an insertion-ordered
association list with unique keys maintained by `setP`. -/
abbrev StyleProfile := List (String × Rat)

/-- Dict lookup (`profile[k]` / `k in profile`). -/
def getP (p : StyleProfile) (k : String) : Option Rat :=
  List.lookup k p

/-- Dict update `p[k] = v`: overwrite the first binding of `k`, or append. -/
def setP : StyleProfile → String → Rat → StyleProfile
  | [], k, v => [(k, v)]
  | (k', v') :: rest, k, v =>
      if k' == k then (k, v) :: rest else (k', v') :: setP rest k v

/-! ## Compatibility rules (RecommendationService class constants) -/

/-- `PATTERN_CLASH_RULES` from `RecommendationService`. -/
def PATTERN_CLASH_RULES : List (String × List String) :=
  [("stripes", ["plaid", "polka", "busy", "geometric"]),
   ("plaid", ["stripes", "polka", "floral", "busy", "geometric"]),
   ("polka", ["stripes", "plaid", "busy", "geometric"]),
   ("floral", ["plaid", "busy", "geometric", "animal"]),
   ("animal", ["floral", "busy", "geometric", "tropical"]),
   ("camo", ["animal", "plaid", "tropical"]),
   ("tropical", ["plaid", "animal", "camo", "busy"]),
   ("geometric", ["stripes", "plaid", "polka", "floral", "busy"]),
   ("busy", ["stripes", "plaid", "polka", "floral", "geometric", "tropical",
             "animal"])]

/-- `PATTERN_COMPLEMENT_RULES` from `RecommendationService`. -/
def PATTERN_COMPLEMENT_RULES : List (String × List String) :=
  [("solid", ["stripes", "plaid", "polka", "floral", "animal", "camo",
              "tropical", "geometric"]),
   ("minimal", ["stripes", "plaid", "polka", "floral", "animal", "geometric"]),
   ("striped", ["solid", "minimal"]),
   ("textured", ["solid", "minimal"])]

/-- Python: `if not pattern: pattern = "solid"` (None and "" default). -/
def defaultedPattern : Option String → String
  | none => "solid"
  | some p => if p == "" then "solid" else p

/-- The complement-table scan in `are_patterns_compatible`: some base pattern
whose complement list links the two patterns, in either orientation. -/
def complementHit (p1 p2 : String) : Bool :=
  PATTERN_COMPLEMENT_RULES.any fun r =>
    (p1 == r.1 && r.2.contains p2) || (p2 == r.1 && r.2.contains p1)

/-- The two clash-table checks in `are_patterns_compatible` (both orientations
return the same result, so they are combined into one disjunction). -/
def clashHit (p1 p2 : String) : Bool :=
  ((List.lookup p1 PATTERN_CLASH_RULES).getD []).contains p2 ||
  ((List.lookup p2 PATTERN_CLASH_RULES).getD []).contains p1

/-- Body of `are_patterns_compatible` after both patterns have been defaulted
and lowercased. -/
def patCompat (p1 p2 : String) : Bool × Rat :=
  if p1 == p2 then
    if ["busy", "geometric", "plaid"].contains p1 then (false, mkRat 2 10)
    else (true, mkRat 7 10)
  else if p1 == "solid" || p2 == "solid" then (true, 1)
  else if complementHit p1 p2 then (true, mkRat 9 10)
  else if clashHit p1 p2 then (false, 0)
  else (true, mkRat 5 10)

/-- `RecommendationService.are_patterns_compatible`. -/
def are_patterns_compatible (pattern1 pattern2 : Option String) : Bool × Rat :=
  patCompat (strLower (defaultedPattern pattern1))
    (strLower (defaultedPattern pattern2))

/-! ## Color compatibility -/

/-- `neutral_colors` local constant of `are_colors_compatible`. -/
def neutral_colors : List String :=
  ["black", "white", "gray", "beige", "tan", "cream", "navy"]

/-- `complementary_pairs` local constant of `are_colors_compatible`. -/
def complementary_pairs : List (List String × List String) :=
  [(["blue"], ["orange", "brown"]),
   (["red"], ["green"]),
   (["yellow"], ["purple"]),
   (["pink"], ["olive", "green"])]

/-- `color_families` local constant of `are_colors_compatible`. -/
def color_families : List (String × List String) :=
  [("blue", ["lightblue", "navy", "skyblue", "teal", "cyan"]),
   ("red", ["maroon", "crimson", "burgundy", "pink"]),
   ("green", ["olive", "lime", "forest", "mint", "emerald"]),
   ("purple", ["lavender", "violet", "plum", "mauve"]),
   ("yellow", ["gold", "mustard", "amber"]),
   ("orange", ["peach", "coral", "salmon"]),
   ("brown", ["tan", "beige", "khaki", "camel"]),
   ("gray", ["silver", "charcoal"])]

/-- Membership in `family_set = {family} | set(variations)`. -/
def inFamily (f : String × List String) (c : String) : Bool :=
  c == f.1 || f.2.contains c

/-- Body of `are_colors_compatible` after both color lists are lowercased. -/
def colorsCompatLower (c1 c2 : List String) : Bool :=
  if c1.any (fun c => neutral_colors.contains c) ||
     c2.any (fun c => neutral_colors.contains c) then true
  else if complementary_pairs.any (fun g =>
      (c1.any (fun c => g.1.contains c) && c2.any (fun c => g.2.contains c)) ||
      (c1.any (fun c => g.2.contains c) && c2.any (fun c => g.1.contains c)))
    then true
  else if color_families.any (fun f =>
      c1.any (inFamily f) && c2.any (inFamily f)) then true
  else false

/-- `RecommendationService.are_colors_compatible`. -/
def are_colors_compatible (colors1 colors2 : List String) : Bool :=
  colorsCompatLower (colors1.map strLower) (colors2.map strLower)

/-! ## Executable rational arithmetic

`Rat.add` and friends do not reduce inside the kernel, so the embedding uses
wrappers built on `mkRat` (which does); they are extensionally the standard
operations. -/

/-- Executable rational addition. -/
def rAdd (a b : Rat) : Rat := mkRat (a.num * b.den + b.num * a.den) (a.den * b.den)

/-- Executable rational multiplication. -/
def rMul (a b : Rat) : Rat := mkRat (a.num * b.num) (a.den * b.den)

/-- Executable rational negation. -/
def rNeg (a : Rat) : Rat := mkRat (-a.num) a.den

/-- Executable rational subtraction. -/
def rSub (a b : Rat) : Rat := rAdd a (rNeg b)

/-- Executable rational division (0 when the divisor is 0; every division in
the engine has a positive divisor). -/
def rDiv (a b : Rat) : Rat :=
  if b.num < 0 then mkRat (-(a.num * b.den)) (a.den * b.num.natAbs)
  else mkRat (a.num * b.den) (a.den * b.num.natAbs)

/-- Python `min` on two rationals. -/
def rMin (a b : Rat) : Rat := if a ≤ b then a else b

/-- Sum of the values of a profile (`sum(d.values())`). -/
def profileTotal (p : StyleProfile) : Rat :=
  p.foldl (fun acc kv => rAdd acc kv.2) 0

/-! ## String helpers -/

/-- Python `s.startswith(pre)`. -/
def strStartsWith (s pre : String) : Bool :=
  pre.data.isPrefixOf s.data

/-- Python `s.replace(" ", "_")` (single-character replacement). -/
def underscoreSpaces (s : String) : String :=
  ⟨s.data.map fun c => if c == ' ' then '_' else c⟩

/-- Python `s.split(sep)` for a single-character separator. -/
def splitOnChar (sep : Char) (s : String) : List String :=
  (s.data.foldr
    (fun c acc =>
      if c == sep then [] :: acc
      else match acc with
        | h :: t => (c :: h) :: t
        | [] => [[c]])
    [[]]).map fun l => ⟨l⟩

/-! ## User model (models/user.py, config.py enums)

Only the fields read by the engine are modelled.  `UserClosetItem` carries,
besides its dataclass fields, the duck-typed attributes `colors`, `pattern`
and `style_tags` that `generate_recommendations` reads on closet items (the
closet API routes can attach arbitrary attributes via `setattr`; spec
section 9 documents this duck typing). -/

/-- `config.StyleCategory`; `nameStr` is the Python `Enum.name`. -/
inductive StyleCategory | CLASSIC | MINIMALIST | TRENDY | EDGY | SPORTY | BOHEMIAN
deriving DecidableEq

/-- Python `Enum.name` for `StyleCategory`. -/
def StyleCategory.nameStr : StyleCategory → String
  | .CLASSIC => "CLASSIC"
  | .MINIMALIST => "MINIMALIST"
  | .TRENDY => "TRENDY"
  | .EDGY => "EDGY"
  | .SPORTY => "SPORTY"
  | .BOHEMIAN => "BOHEMIAN"

/-- `config.ColorPalette`. -/
inductive ColorPalette | NEUTRALS | EARTH_TONES | PASTELS | BOLD | MONOCHROME
deriving DecidableEq

/-- Python `Enum.name` for `ColorPalette`. -/
def ColorPalette.nameStr : ColorPalette → String
  | .NEUTRALS => "NEUTRALS"
  | .EARTH_TONES => "EARTH_TONES"
  | .PASTELS => "PASTELS"
  | .BOLD => "BOLD"
  | .MONOCHROME => "MONOCHROME"

/-- `config.FitPreference`. -/
inductive FitPreference | OVERSIZED | FITTED | CROPPED | STRUCTURED
deriving DecidableEq

/-- Python `Enum.name` for `FitPreference`. -/
def FitPreference.nameStr : FitPreference → String
  | .OVERSIZED => "OVERSIZED"
  | .FITTED => "FITTED"
  | .CROPPED => "CROPPED"
  | .STRUCTURED => "STRUCTURED"

/-- `config.OccasionType`. -/
inductive OccasionType | CASUAL | BUSINESS | STREETWEAR | DATE_NIGHT | FORMAL
deriving DecidableEq

/-- Python `Enum.name` for `OccasionType`. -/
def OccasionType.nameStr : OccasionType → String
  | .CASUAL => "CASUAL"
  | .BUSINESS => "BUSINESS"
  | .STREETWEAR => "STREETWEAR"
  | .DATE_NIGHT => "DATE_NIGHT"
  | .FORMAL => "FORMAL"

/-- `models/user.py UserClosetItem` (fields the engine reads), plus the
duck-typed attributes read by the closet-affinity bucket. -/
structure UserClosetItem where
  item_id : String
  category : String
  subcategory : Option String := none
  color : String := ""
  brand : Option String := none
  tags : List String := []
  favorite : Bool := false
  colors : List String := []
  pattern : Option String := none
  style_tags : List String := []
deriving DecidableEq

/-- `models/user.py StyleQuizResults` (fields read by `analyze_style_quiz`). -/
structure StyleQuizResults where
  overall_style : List StyleCategory := []
  color_palette : List ColorPalette := []
  pattern_preference : String := ""
  preferred_patterns : List String := []
  top_fit : List FitPreference := []
  bottom_fit : List String := []
  occasion_preferences : List OccasionType := []
  favorite_brands : List String := []
  budget_range : String := ""
  sustainability_priority : Bool := false
  secondhand_interest : Bool := false
  seasonal_preference : String := ""
deriving DecidableEq

/-- `models/user.py UserFeedback` (liked/disliked item-id sets, modelled as
lists; the derived profile is order- and duplicate-insensitive because every
write is a constant). -/
structure UserFeedback where
  liked_items : List String := []
  disliked_items : List String := []
  saved_outfits : List (List String) := []
deriving DecidableEq

/-- `models/user.py UserProfile` (fields read by the engine).
`favorite_brands` models the duck-typed attribute tested with
`hasattr(user, "favorite_brands")` in `generate_recommendations`;
`none` means the attribute is absent (it is not a dataclass field). -/
structure UserProfile where
  user_id : String
  closet_items : List UserClosetItem := []
  style_quiz : Option StyleQuizResults := none
  feedback : UserFeedback := {}
  favorite_brands : Option (List String) := none
deriving DecidableEq

/-! ## StyleAnalysisService -/

/-- `StyleAnalysisService.analyze_style_quiz`. -/
def analyze_style_quiz (quiz : StyleQuizResults) : StyleProfile :=
  let p : StyleProfile := []
  let p := quiz.overall_style.foldl
    (fun acc s => setP acc ("style_" ++ strLower s.nameStr) 1) p
  let p := quiz.color_palette.foldl
    (fun acc c => setP acc ("color_" ++ strLower c.nameStr) 1) p
  let p := if quiz.pattern_preference == "" then p
    else setP p ("pattern_" ++ underscoreSpaces (strLower quiz.pattern_preference)) 1
  let p := quiz.preferred_patterns.foldl
    (fun acc pat => setP acc ("pattern_" ++ underscoreSpaces (strLower pat)) 1) p
  let p := quiz.top_fit.foldl
    (fun acc f => setP acc ("top_fit_" ++ strLower f.nameStr) 1) p
  let p := quiz.bottom_fit.foldl
    (fun acc f => setP acc ("bottom_fit_" ++ underscoreSpaces (strLower f)) 1) p
  let p := quiz.occasion_preferences.foldl
    (fun acc o => setP acc ("occasion_" ++ strLower o.nameStr) 1) p
  let p := if quiz.sustainability_priority then setP p "sustainability" 1 else p
  let p := if quiz.secondhand_interest then setP p "secondhand" 1 else p
  let p := if quiz.seasonal_preference == "" then p
    else setP p ("season_" ++ underscoreSpaces (strLower quiz.seasonal_preference)) 1
  let p :=
    if quiz.budget_range == "" then p
    else if quiz.budget_range == "Under $50" then setP p "budget_low" 1
    else if quiz.budget_range == "$50 - $100" then setP p "budget_medium_low" 1
    else if quiz.budget_range == "$100 - $250" then setP p "budget_medium_high" 1
    else if quiz.budget_range == "$250+" then setP p "budget_high" 1
    else p
  let total := profileTotal p
  if 0 < total then p.map (fun kv => (kv.1, rDiv kv.2 total)) else p

/-- Increment a counter dict entry (`d[k] = d.get(k, 0) + 1`). -/
def bumpCount : List (String × Nat) → String → List (String × Nat)
  | [], k => [(k, 1)]
  | (k', c) :: rest, k =>
      if k' == k then (k, c + 1) :: rest else (k', c) :: bumpCount rest k

/-- Build a counter dict over the keys produced per closet item. -/
def countBy (items : List UserClosetItem)
    (keysOf : UserClosetItem → List String) : List (String × Nat) :=
  items.foldl (fun m item => (keysOf item).foldl bumpCount m) []

/-- Category keys counted per closet item (category, and
`category_subcategory` when a subcategory is present). -/
def closetCatKeys (item : UserClosetItem) : List String :=
  let cat := strLower item.category
  if optTruthy item.subcategory then
    [cat, cat ++ "_" ++ strLower (item.subcategory.getD "")]
  else [cat]

/-- `StyleAnalysisService.analyze_closet`. -/
def analyze_closet (closet_items : List UserClosetItem) : StyleProfile :=
  if closet_items.isEmpty then [] else
  let total := closet_items.length
  let categories := countBy closet_items closetCatKeys
  let colors := countBy closet_items
    (fun i => if i.color == "" then [] else [strLower i.color])
  let brands := countBy closet_items
    (fun i => if optTruthy i.brand then [strLower (i.brand.getD "")] else [])
  let tags := countBy closet_items (fun i => i.tags.map strLower)
  let p := categories.foldl
    (fun acc kc => setP acc ("category_" ++ kc.1) (mkRat kc.2 total)) []
  let p := colors.foldl
    (fun acc kc => setP acc ("color_" ++ kc.1) (mkRat kc.2 total)) p
  let p := brands.foldl
    (fun acc kc => setP acc ("brand_" ++ kc.1) (mkRat kc.2 total)) p
  let p := tags.foldl
    (fun acc kc => setP acc ("tag_" ++ kc.1) (mkRat kc.2 total)) p
  let favs := closet_items.filter (fun i => i.favorite)
  let favorite_count := favs.length
  if favorite_count == 0 then p else
  let fcats := countBy favs (fun i => [strLower i.category])
  let fcolors := countBy favs
    (fun i => if i.color == "" then [] else [strLower i.color])
  let fbrands := countBy favs
    (fun i => if optTruthy i.brand then [strLower (i.brand.getD "")] else [])
  let ftags := countBy favs (fun i => i.tags.map strLower)
  let p := fcats.foldl (fun acc kc => setP acc ("favorite_category_" ++ kc.1)
    (rMul (mkRat kc.2 favorite_count) (mkRat 3 2))) p
  let p := fcolors.foldl (fun acc kc => setP acc ("favorite_color_" ++ kc.1)
    (rMul (mkRat kc.2 favorite_count) (mkRat 3 2))) p
  let p := fbrands.foldl (fun acc kc => setP acc ("favorite_brand_" ++ kc.1)
    (rMul (mkRat kc.2 favorite_count) (mkRat 3 2))) p
  let p := ftags.foldl (fun acc kc => setP acc ("favorite_tag_" ++ kc.1)
    (rMul (mkRat kc.2 favorite_count) (mkRat 3 2))) p
  p

/-- The `brand_category_color_…` token heuristic of `analyze_feedback`:
the first three `_`-separated parts of an item id, when there are at
least three. -/
def idParts (id : String) : Option (String × String × String) :=
  match splitOnChar '_' id with
  | p0 :: p1 :: p2 :: _ => some (strLower p0, strLower p1, strLower p2)
  | _ => none

/-- `StyleAnalysisService.analyze_feedback`. -/
def analyze_feedback (feedback : UserFeedback) : StyleProfile :=
  if feedback.liked_items.isEmpty && feedback.disliked_items.isEmpty then []
  else
    let likedTriples := feedback.liked_items.filterMap idParts
    let dislikedTriples := feedback.disliked_items.filterMap idParts
    let p := likedTriples.foldl
      (fun acc t => setP acc ("liked_brand_" ++ t.1) 1) []
    let p := likedTriples.foldl
      (fun acc t => setP acc ("liked_category_" ++ t.2.1) 1) p
    let p := likedTriples.foldl
      (fun acc t => setP acc ("liked_color_" ++ t.2.2) 1) p
    let p := dislikedTriples.foldl
      (fun acc t => setP acc ("disliked_brand_" ++ t.1) (-1)) p
    let p := dislikedTriples.foldl
      (fun acc t => setP acc ("disliked_category_" ++ t.2.1) (-1)) p
    let p := dislikedTriples.foldl
      (fun acc t => setP acc ("disliked_color_" ++ t.2.2) (-1)) p
    p

/-- The quiz/closet part of `combine_style_profiles`: quiz entries scaled by
0.5, closet entries scaled by 0.3 and added onto matching keys. -/
def blend_quiz_closet (quiz_profile closet_profile : StyleProfile) : StyleProfile :=
  let c1 := quiz_profile.foldl
    (fun acc kv => setP acc kv.1 (rMul kv.2 (mkRat 5 10))) []
  closet_profile.foldl
    (fun acc kv =>
      match getP acc kv.1 with
      | some v => setP acc kv.1 (rAdd v (rMul kv.2 (mkRat 3 10)))
      | none => setP acc kv.1 (rMul kv.2 (mkRat 3 10)))
    c1

/-- Value written for one feedback entry by `combine_style_profiles`:
`disliked_`-prefixed keys are force-set to exactly -1.0; other keys are
blended with weight 0.2 on top of any existing entry. -/
def feedbackVal (acc : StyleProfile) (kv : String × Rat) : Rat :=
  if strStartsWith kv.1 "disliked_" then -1
  else match getP acc kv.1 with
    | some v => rAdd v (rMul kv.2 (mkRat 2 10))
    | none => rMul kv.2 (mkRat 2 10)

/-- One feedback step of `combine_style_profiles` (every branch of the Python
code writes `acc[kv.1]`, so the step is a single dict update). -/
def feedbackStep (acc : StyleProfile) (kv : String × Rat) : StyleProfile :=
  setP acc kv.1 (feedbackVal acc kv)

/-- `StyleAnalysisService.combine_style_profiles`. -/
def combine_style_profiles (quiz_profile closet_profile feedback_profile :
    StyleProfile) : StyleProfile :=
  feedback_profile.foldl feedbackStep (blend_quiz_closet quiz_profile closet_profile)

/-- `StyleAnalysisService.generate_user_style_profile`. -/
def generate_user_style_profile (user : UserProfile) : StyleProfile :=
  let quiz_profile := match user.style_quiz with
    | some q => analyze_style_quiz q
    | none => []
  let closet_profile :=
    if user.closet_items.isEmpty then [] else analyze_closet user.closet_items
  let feedback_profile := analyze_feedback user.feedback
  combine_style_profiles quiz_profile closet_profile feedback_profile

/-! ## Catalog and recommendation model
(models/clothing.py, models/recommendation.py, config.py) -/

/-- The `social_proof_match` dict attached (in place) to catalog items by
`calculate_item_match_score`: keys `celebrity`, `match_score`, and
optionally `event`. -/
structure SocialProofMatchInfo where
  celebrity : String
  match_score : Rat
  event : Option String := none
deriving DecidableEq

/-- `models/clothing.py ClothingItem`.  `is_trending` models the duck-typed
attribute read with `getattr(item, "is_trending", False)` (it is not a
dataclass field; `false` when never attached); `social_proof_match` models
the duck-typed attribute attached by `calculate_item_match_score`
(`none` when absent, i.e. `hasattr` is false). -/
structure ClothingItem where
  item_id : String
  name : String := ""
  brand : String := ""
  category : String
  subcategory : Option String := none
  colors : List String := []
  sizes : List String := []
  price : Rat := 0
  sale_price : Option Rat := none
  description : String := ""
  style_tags : List String := []
  material : Option String := none
  pattern : Option String := none
  fit_type : Option String := none
  occasion_tags : List String := []
  season_tags : List String := []
  sustainable : Bool := false
  trending_score : Rat := 0
  retailer_id : String := ""
  is_trending : Bool := false
  social_proof_match : Option SocialProofMatchInfo := none
deriving DecidableEq

/-- `models/recommendation.py SocialProofContext`. -/
structure SocialProofContext where
  celebrity : String
  event : Option String := none
  outfit_description : Option String := none
  outfit_tags : List String := []
  patterns : List String := []
  colors : List String := []
deriving DecidableEq

/-- `models/recommendation.py ItemRecommendation`. -/
structure ItemRecommendation where
  item_id : String
  score : Rat
  match_reasons : List String := []
  complementary_items : List String := []
  social_proof_match : Option SocialProofMatchInfo := none
deriving DecidableEq

/-- `models/recommendation.py OutfitRecommendation`.  `created_at` models the
`datetime.now()` timestamp as an opaque tick. -/
structure OutfitRecommendation where
  outfit_id : String
  items : List String
  score : Rat
  occasion : String
  match_reasons : List String := []
  created_at : Nat := 0
  social_proof : Option SocialProofContext := none
deriving DecidableEq

/-- `models/recommendation.py RecommendationResponse`. -/
structure RecommendationResponse where
  user_id : String
  timestamp : Nat := 0
  recommended_items : List ItemRecommendation := []
  recommended_outfits : List OutfitRecommendation := []
  recommendation_context : Option String := none
deriving DecidableEq

/-- `config.WEIGHTS`. -/
def WEIGHTS : List (String × Rat) :=
  [("style_match", mkRat 35 100), ("color_match", mkRat 20 100),
   ("fit_match", mkRat 15 100), ("occasion_match", mkRat 20 100),
   ("trending_bonus", mkRat 5 100), ("retailer_availability", mkRat 5 100)]

/-- `config.MAX_RECOMMENDATIONS` (default environment value 20). -/
def MAX_RECOMMENDATIONS : Nat := 20

/-! ## Social Proof Matcher (`calculate_social_proof_match`)

The Python function also accumulates a local `match_reasons` list, but never
returns or stores it; the embedding keeps only the score.  The Python code
has a latent `NameError` (`style_indicators` is referenced under
`if social_proof.outfit_tags:` but defined only under
`if social_proof.outfit_description:`); the embedding treats
`style_indicators` as the constant list it is, which matches the Python
behavior on every input whose description is non-empty. -/

/-- `garment_keywords` from `calculate_social_proof_match`. -/
def garment_keywords : List String :=
  ["dress", "gown", "suit", "blazer", "jacket", "pants", "trousers", "skirt",
   "shirt", "blouse", "sweater", "coat", "shoes", "boots", "heels",
   "sneakers", "bag", "handbag", "clutch", "scarf", "hat", "top", "jeans",
   "shorts", "jumpsuit", "cardigan", "t-shirt", "tee", "tank", "camisole",
   "hoodie", "turtleneck", "tunic", "leggings", "culottes", "chinos",
   "joggers", "sweatpants", "maxi", "mini", "midi", "slip", "bodycon",
   "a-line", "shift", "wrap", "cocktail", "sheath", "sundress", "shirtdress",
   "romper", "trench", "parka", "peacoat", "denim", "leather", "bomber",
   "windbreaker", "cape", "poncho", "raincoat", "overcoat", "puffer",
   "flats", "loafers", "pumps", "ankle boots", "knee-high", "combat",
   "stilettos", "mules", "clogs", "wedges", "espadrilles", "oxfords",
   "slippers", "platforms", "purse", "tote", "backpack", "satchel",
   "crossbody", "shoulder bag"]

/-- Footwear garment types (0.8 against category "shoes"). -/
def footwear_garments : List String :=
  ["boots", "heels", "sneakers", "flats", "loafers", "pumps", "stilettos",
   "mules", "clogs", "wedges", "espadrilles", "oxfords", "slippers",
   "platforms"]

/-- Top garment types (0.8 against category "tops"). -/
def top_garments : List String :=
  ["blouse", "t-shirt", "tee", "tank", "camisole", "hoodie", "turtleneck",
   "tunic"]

/-- Bottom garment types (0.8 against category "pants"). -/
def bottom_garments : List String :=
  ["trousers", "culottes", "chinos", "joggers", "sweatpants"]

/-- Dress garment types (0.8 against category "dresses"). -/
def dress_garments : List String :=
  ["gown", "maxi", "mini", "midi", "slip", "bodycon", "a-line", "shift",
   "wrap", "cocktail", "sheath", "sundress", "shirtdress"]

/-- Outerwear garment types (0.8 against category "outerwear"). -/
def outerwear_garments : List String :=
  ["blazer", "trench", "parka", "peacoat", "bomber", "windbreaker", "cape",
   "poncho", "raincoat", "overcoat", "puffer"]

/-- Bag garment types (0.8 against category "bags"). -/
def bag_garments : List String :=
  ["clutch", "purse", "tote", "backpack", "satchel", "crossbody",
   "shoulder bag"]

/-- Score of one extracted garment keyword against the item category and
subcategory: the if/elif chain inside the `for garment in garment_types`
loop; `none` when no branch fires (loop continues). -/
def garmentScoreFor (item_category item_subcategory g : String) : Option Rat :=
  let gl := strLower g
  if gl == item_category || gl == item_subcategory then some 1
  else if footwear_garments.contains gl && item_category == "shoes" then
    some (mkRat 8 10)
  else if top_garments.contains gl && item_category == "tops" then
    some (mkRat 8 10)
  else if bottom_garments.contains gl && item_category == "pants" then
    some (mkRat 8 10)
  else if dress_garments.contains gl && item_category == "dresses" then
    some (mkRat 8 10)
  else if outerwear_garments.contains gl && item_category == "outerwear" then
    some (mkRat 8 10)
  else if bag_garments.contains gl && item_category == "bags" then
    some (mkRat 8 10)
  else if
      (["top", "shirt", "sweater", "blouse", "t-shirt", "tee"].contains gl &&
        ["tops", "shirts", "t-shirts", "blouses", "sweaters"].contains
          item_category) ||
      (["pants", "bottoms", "jeans", "skirt", "shorts"].contains gl &&
        ["bottoms", "pants", "jeans", "skirts", "shorts"].contains
          item_category) ||
      (["dress", "gown"].contains gl && ["dresses"].contains item_category) ||
      (["jacket", "coat", "blazer"].contains gl &&
        ["outerwear", "jackets", "coats", "blazers"].contains item_category) ||
      (["shoes", "footwear", "boots", "heels"].contains gl &&
        ["shoes", "footwear"].contains item_category) then
    some (mkRat 6 10)
  else none

/-- `basic_categories` fallback table of the garment matcher. -/
def basic_categories : List (String × List String) :=
  [("tops", ["top", "shirt", "blouse", "t-shirt", "tee", "sweater"]),
   ("bottoms", ["pants", "jeans", "skirt", "shorts", "trousers"]),
   ("dresses", ["dress", "gown", "jumpsuit"]),
   ("outerwear", ["jacket", "coat", "blazer", "cardigan"]),
   ("shoes", ["shoes", "boots", "heels", "sandals", "sneakers"]),
   ("accessories", ["bag", "purse", "handbag", "jewelry", "scarf", "hat"])]

/-- Lowercased item subcategory, "" when absent/empty (Python
`item.subcategory.lower() if item.subcategory else ""`). -/
def itemSubcat (item : ClothingItem) : String :=
  if optTruthy item.subcategory then strLower (item.subcategory.getD "")
  else ""

/-- Garment-match component of `calculate_social_proof_match` (weight 0.30). -/
def garmentComponent (item : ClothingItem) (sp : SocialProofContext) : Rat :=
  if sp.outfit_tags.isEmpty then 0
  else
    let item_category := strLower item.category
    let item_subcategory := itemSubcat item
    let garment_types := sp.outfit_tags.flatMap fun tag =>
      garment_keywords.filter fun k => substrOf (strLower k) (strLower tag)
    let score :=
      (garment_types.findSome? (garmentScoreFor item_category item_subcategory)).getD 0
    if score == 0 && optTruthy sp.outfit_description then
      let desc := strLower (sp.outfit_description.getD "")
      if basic_categories.any (fun c =>
          c.2.any (fun kw => substrOf kw desc) &&
          (strLower c.1 == item_category ||
            (!(item_subcategory == "") &&
              c.2.any (fun sub => substrOf sub item_subcategory)))) then
        mkRat 5 10
      else score
    else score

/-- `color_keywords` mined from the free-text description. -/
def color_keywords : List String :=
  ["black", "white", "red", "blue", "green", "yellow", "purple", "pink",
   "gray", "grey", "brown", "tan", "beige", "cream", "ivory", "navy", "teal",
   "burgundy", "maroon", "gold", "silver", "orange"]

/-- `similar_color_pairs` of the color matcher. -/
def similar_color_pairs : List (List String × List String) :=
  [(["navy", "dark blue"], ["blue"]),
   (["beige", "tan", "khaki"], ["cream", "sand", "stone"]),
   (["burgundy", "maroon", "wine"], ["red", "crimson"]),
   (["gray", "grey"], ["silver", "charcoal"]),
   (["forest green", "hunter green"], ["green", "olive"])]

/-- Neutral colors credited by the social-proof color matcher. -/
def social_neutrals : List String :=
  ["black", "white", "gray", "grey", "beige", "navy"]

/-- Color-match component of `calculate_social_proof_match` (weight 0.25).
Python sets are modelled as deduplicated lists (cardinalities agree). -/
def spColorComponent (item : ClothingItem) (sp : SocialProofContext) : Rat :=
  if item.colors.isEmpty then 0
  else
    let celeb0 := (sp.colors.map strLower).dedup
    let celeb :=
      if celeb0.isEmpty && optTruthy sp.outfit_description then
        color_keywords.filter fun c =>
          substrOf c (strLower (sp.outfit_description.getD ""))
      else celeb0
    let item_colors := (item.colors.map strLower).dedup
    if !celeb.isEmpty then
      let colorMatches := celeb.filter fun c => item_colors.contains c
      if !colorMatches.isEmpty then mkRat colorMatches.length celeb.length
      else if similar_color_pairs.any (fun g =>
          (celeb.any (fun c => g.1.contains c) &&
            item_colors.any (fun c => g.2.contains c)) ||
          (celeb.any (fun c => g.2.contains c) &&
            item_colors.any (fun c => g.1.contains c))) then
        mkRat 5 10
      else if item_colors.any (fun c => social_neutrals.contains c) then
        mkRat 3 10
      else 0
    else if item_colors.any (fun c => social_neutrals.contains c) then
      mkRat 3 10
    else 0

/-- `pattern_keywords` mined from the free-text description. -/
def sp_pattern_keywords : List String :=
  ["striped", "stripes", "plaid", "checked", "checkered", "polka dot",
   "floral", "animal print", "leopard", "zebra", "snake", "geometric",
   "abstract", "solid", "plain", "textured", "embroidered", "sequined",
   "beaded"]

/-- `pattern_categories` family groups of the pattern matcher. -/
def sp_pattern_categories : List (List String) :=
  [["striped", "stripes", "pinstripe", "pinstriped"],
   ["plaid", "checked", "checkered", "tartan"],
   ["animal", "leopard", "zebra", "snake", "cheetah", "tiger"],
   ["floral", "flower", "botanical", "tropical"],
   ["polka dot", "polka", "dotted", "spots"],
   ["geometric", "abstract", "graphic"],
   ["embroidered", "embroidery", "needlework"],
   ["sequined", "sequin", "sequins", "beaded", "embellished"]]

/-- Pattern-match component of `calculate_social_proof_match` (weight 0.15). -/
def spPatternComponent (item : ClothingItem) (sp : SocialProofContext) : Rat :=
  if !optTruthy item.pattern then 0
  else
    let celeb0 := sp.patterns.map strLower
    let celeb :=
      if celeb0.isEmpty && optTruthy sp.outfit_description then
        sp_pattern_keywords.filter fun pat =>
          substrOf pat (strLower (sp.outfit_description.getD ""))
      else celeb0
    let item_pattern := strLower (item.pattern.getD "")
    if !celeb.isEmpty then
      if celeb.contains item_pattern then 1
      else if celeb.any (fun pat =>
          substrOf pat item_pattern || substrOf item_pattern pat) then
        mkRat 7 10
      else if sp_pattern_categories.any (fun catg =>
          celeb.any (fun pat => catg.any (fun cp => substrOf cp pat)) &&
          catg.any (fun cp => substrOf cp item_pattern)) then
        mkRat 6 10
      else 0
    else if item_pattern == "solid" || item_pattern == "plain" then mkRat 3 10
    else 0

/-- `fit_keywords` of the silhouette matcher. -/
def fit_keywords : List String :=
  ["oversized", "baggy", "loose", "fitted", "slim", "skinny", "tight",
   "cropped", "high-waisted", "low-rise", "flared", "straight-leg",
   "wide-leg", "bootcut", "relaxed", "structured", "tailored",
   "unstructured", "boxy", "bodycon", "a-line", "empire", "drop-waist",
   "peplum", "pencil"]

/-- `complementary_fits` silhouette groups. -/
def complementary_fits : List (List String) :=
  [["oversized", "baggy", "loose", "relaxed", "boyfriend"],
   ["fitted", "slim", "skinny", "tight", "bodycon"],
   ["structured", "tailored"],
   ["cropped", "high-waisted"],
   ["flared", "wide-leg", "bootcut"],
   ["straight-leg", "classic", "regular"]]

/-- Python `str.split()` (whitespace split, empty parts dropped). -/
def splitWS (s : String) : List String :=
  ((s.data.foldr
    (fun c acc =>
      if [' ', '\t', '\n', '\r'].contains c then [] :: acc
      else match acc with
        | h :: t => (c :: h) :: t
        | [] => [[c]])
    [[]]).map fun l => (⟨l⟩ : String)).filter fun w => !(w == "")

/-- Lowercased item fit type, "" when absent/empty. -/
def itemFit (item : ClothingItem) : String :=
  if optTruthy item.fit_type then strLower (item.fit_type.getD "") else ""

/-- Fit indicators among the item style tags (original case kept, exactly as
in the Python list comprehension). -/
def itemFitIndicators (item : ClothingItem) : List String :=
  item.style_tags.filter fun tag => fit_keywords.contains (strLower tag)

/-- Fit keywords mined from the context tags and description. -/
def celebrityFitIndicators (sp : SocialProofContext) : List String :=
  (sp.outfit_tags.flatMap fun tag =>
    (splitWS (strLower tag)).filter fun w => fit_keywords.contains w) ++
  (if optTruthy sp.outfit_description then
    fit_keywords.filter fun kw =>
      substrOf kw (strLower (sp.outfit_description.getD ""))
  else [])

/-- Silhouette-match component of `calculate_social_proof_match`
(weight 0.15). -/
def silhouetteComponent (item : ClothingItem) (sp : SocialProofContext) : Rat :=
  let item_fit := itemFit item
  let inds := itemFitIndicators item
  let celeb := celebrityFitIndicators sp
  if !celeb.isEmpty && (!(item_fit == "") || !inds.isEmpty) then
    if !(item_fit == "") && celeb.contains item_fit then 1
    else if !inds.isEmpty && inds.any (fun f => celeb.contains f) then
      mkRat 8 10
    else if complementary_fits.any (fun group =>
        celeb.any (fun f => group.contains f) &&
        (inds.any (fun f => group.contains f) ||
          (!(item_fit == "") && group.contains item_fit))) then
      mkRat 7 10
    else 0
  else 0

/-- `style_indicators` of the style matcher. -/
def style_indicators : List String :=
  ["casual", "formal", "elegant", "chic", "minimalist", "bold", "classic",
   "vintage", "retro", "preppy", "bohemian", "boho", "edgy", "streetwear",
   "glamorous", "sporty", "athleisure", "business", "professional",
   "feminine", "masculine", "androgynous", "romantic", "punk", "grunge",
   "hip-hop", "sophisticated", "trendy", "timeless", "modern",
   "contemporary", "urban", "festival", "party", "lounge", "vacation",
   "resort", "beach", "office", "workwear", "cocktail", "evening",
   "black tie"]

/-- `complementary_styles` groups of the style matcher. -/
def complementary_styles : List (List String) :=
  [["casual", "relaxed", "comfortable", "everyday", "lounge"],
   ["formal", "elegant", "sophisticated", "dressy", "black tie", "cocktail",
    "evening"],
   ["minimalist", "clean", "simple", "streamlined"],
   ["vintage", "retro", "classic", "timeless"],
   ["bohemian", "boho", "free-spirited", "eclectic"],
   ["edgy", "punk", "grunge", "rock", "alternative"],
   ["sporty", "athleisure", "active", "athletic"],
   ["streetwear", "urban", "hip-hop", "street style"],
   ["professional", "business", "workwear", "office"],
   ["trendy", "fashion-forward", "contemporary", "modern"]]

/-- Style keywords mined from the context description and tags (a Python
set; modelled as a deduplicated list). -/
def spStyleKeywords (sp : SocialProofContext) : List String :=
  ((if optTruthy sp.outfit_description then
      style_indicators.filter fun st =>
        substrOf st (strLower (sp.outfit_description.getD ""))
    else []) ++
   (sp.outfit_tags.flatMap fun tag =>
      style_indicators.filter fun st => substrOf st (strLower tag))).dedup

/-- Style-match component of `calculate_social_proof_match` (weight 0.15). -/
def spStyleComponent (item : ClothingItem) (sp : SocialProofContext) : Rat :=
  let style_keywords := spStyleKeywords sp
  if item.style_tags.isEmpty then 0
  else
    let item_styles := (item.style_tags.map strLower).dedup
    let matched := style_keywords.filter fun st => item_styles.contains st
    if !matched.isEmpty then
      mkRat matched.length (max style_keywords.length 1)
    else if complementary_styles.any (fun group =>
        style_keywords.any (fun st => group.contains st) &&
        item_styles.any (fun st => group.contains st)) then
      mkRat 6 10
    else 0

/-- `RecommendationService.calculate_social_proof_match`. -/
def calculate_social_proof_match (item : ClothingItem)
    (social_proof : SocialProofContext) : Rat :=
  if social_proof.celebrity == "" then 0
  else
    let weighted_score :=
      rAdd (rMul (garmentComponent item social_proof) (mkRat 30 100))
        (rAdd (rMul (spColorComponent item social_proof) (mkRat 25 100))
          (rAdd (rMul (spPatternComponent item social_proof) (mkRat 15 100))
            (rAdd (rMul (silhouetteComponent item social_proof) (mkRat 15 100))
              (rMul (spStyleComponent item social_proof) (mkRat 15 100)))))
    if mkRat 4 10 < weighted_score then weighted_score else 0

/-! ## Item Match Scorer (`calculate_item_match_score`)

The function mutates the item in place when a social-proof context matches
(it attaches `item.social_proof_match`); the embedding threads the item
through and returns the (possibly updated) item as the third component. -/

/-- Division of a rational by a positive natural (list lengths). -/
def rDivNat (a : Rat) (n : Nat) : Rat := mkRat a.num (a.den * n)

/-- `k in profile and profile[k] > 0`, returning the value. -/
def getPos (profile : StyleProfile) (k : String) : Option Rat :=
  match getP profile k with
  | some v => if 0 < v then some v else none
  | none => none

/-- `k in profile and profile[k] < 0`. -/
def negP (profile : StyleProfile) (k : String) : Bool :=
  match getP profile k with
  | some v => decide (v < 0)
  | none => false

/-- Style-tag scan: accumulates `style_matches` and the per-tag reasons for
`style_{tag}` and `liked_tag_{tag}` profile hits. -/
def styleTagsScan (item : ClothingItem) (profile : StyleProfile) :
    Rat × List String :=
  item.style_tags.foldl
    (fun acc tag =>
      let acc := match getPos profile ("style_" ++ strLower tag) with
        | some v =>
            (rAdd acc.1 v,
             acc.2 ++ ["Matches your " ++ tag ++ " style preference"])
        | none => acc
      match getPos profile ("liked_tag_" ++ strLower tag) with
      | some v => (rAdd acc.1 v, acc.2 ++ ["Similar to items youve liked"])
      | none => acc)
    (0, [])

/-- Color scan: accumulates `color_matches` and reasons for `color_{c}` and
`liked_color_{c}` profile hits. -/
def colorScan (item : ClothingItem) (profile : StyleProfile) :
    Rat × List String :=
  item.colors.foldl
    (fun acc color =>
      let acc := match getPos profile ("color_" ++ strLower color) with
        | some v =>
            (rAdd acc.1 v,
             acc.2 ++ ["Matches your " ++ color ++ " color preference"])
        | none => acc
      match getPos profile ("liked_color_" ++ strLower color) with
      | some v =>
          (rAdd acc.1 v, acc.2 ++ ["Similar color to items youve liked"])
      | none => acc)
    (0, [])

/-- Fit scan: `top_fit_*` for tops/shirts/t-shirts, else `bottom_fit_*`. -/
def fitScan (item : ClothingItem) (profile : StyleProfile) :
    Rat × List String :=
  if optTruthy item.fit_type then
    let ft := item.fit_type.getD ""
    let fit_key :=
      if ["tops", "shirts", "t-shirts"].contains (strLower item.category) then
        "top_fit_" ++ strLower ft
      else "bottom_fit_" ++ strLower ft
    match getPos profile fit_key with
    | some v => (v, ["Matches your preferred " ++ ft ++ " fit"])
    | none => (0, [])
  else (0, [])

/-- Occasion scan: accumulates `occasion_matches` and reasons. -/
def occasionScan (item : ClothingItem) (profile : StyleProfile) :
    Rat × List String :=
  item.occasion_tags.foldl
    (fun acc occasion =>
      match getPos profile ("occasion_" ++ strLower occasion) with
      | some v =>
          (rAdd acc.1 v, acc.2 ++ ["Great for " ++ occasion ++ " occasions"])
      | none => acc)
    (0, [])

/-- Pattern preference: liked / profile / preferred keys in order, then the
solid-0.8 / other-0.5 defaults; 0.7 when the item has no pattern. -/
def patternScan (item : ClothingItem) (profile : StyleProfile) :
    Rat × List String :=
  if optTruthy item.pattern then
    let p := item.pattern.getD ""
    let pl := strLower p
    match getPos profile ("liked_pattern_" ++ pl) with
    | some v => (v, ["Features your preferred " ++ p ++ " pattern"])
    | none =>
      match getPos profile ("pattern_" ++ pl) with
      | some v => (v, ["Has a " ++ p ++ " pattern that suits your style"])
      | none =>
        match getPos profile ("preferred_pattern_" ++ pl) with
        | some v => (v, ["Features your preferred " ++ p ++ " pattern"])
        | none =>
          if pl == "solid" then
            (mkRat 8 10, ["Versatile solid pattern that pairs with anything"])
          else (mkRat 5 10, [])
  else (mkRat 7 10, [])

/-- The hard-veto test of `calculate_item_match_score`: some style tag,
color, or (truthy) pattern of the item has a strictly-negative `disliked_*`
profile entry. -/
def vetoed (item : ClothingItem) (profile : StyleProfile) : Bool :=
  item.style_tags.any (fun tag => negP profile ("disliked_tag_" ++ strLower tag)) ||
  item.colors.any (fun c => negP profile ("disliked_color_" ++ strLower c)) ||
  (if optTruthy item.pattern then
    negP profile ("disliked_pattern_" ++ strLower (item.pattern.getD ""))
  else false)

/-- Social-proof part of `calculate_item_match_score`: the component score,
the added reason, and the item with `social_proof_match` attached in place
when the social score is positive and the attribute was absent. -/
def socialPart (item : ClothingItem) (ctx : Option SocialProofContext) :
    Rat × List String × ClothingItem :=
  match ctx with
  | some c =>
      let sps := calculate_social_proof_match item c
      if 0 < sps then
        (sps, ["Inspired by " ++ c.celebrity ++ "s style"],
         if item.social_proof_match.isNone then
           { item with
             social_proof_match := some (SocialProofMatchInfo.mk
               c.celebrity sps
               (if optTruthy c.event then c.event else none)) }
         else item)
      else (0, [], item)
  | none => (0, [], item)

/-- Reason dedup (`seen` set plus ordered list). -/
def dedupReasons (rs : List String) : List String :=
  rs.foldl (fun acc r => if acc.contains r then acc else acc ++ [r]) []

/-- All match reasons accumulated by `calculate_item_match_score`, in
source order (style, color, fit, occasion, pattern, trending, social). -/
def rawReasons (item : ClothingItem) (profile : StyleProfile)
    (ctx : Option SocialProofContext) : List String :=
  (styleTagsScan item profile).2 ++ (colorScan item profile).2 ++
  (fitScan item profile).2 ++ (occasionScan item profile).2 ++
  (patternScan item profile).2 ++
  (if mkRat 7 10 < item.trending_score then ["Currently trending"] else []) ++
  (socialPart item ctx).2.1

/-- Deduplicated reasons, with celebrity-mentioning reasons moved to the
front when a social-proof context is present and an "Inspired by" reason
exists. -/
def orderedReasons (item : ClothingItem) (profile : StyleProfile)
    (ctx : Option SocialProofContext) : List String :=
  let u := dedupReasons (rawReasons item profile ctx)
  match ctx with
  | some c =>
      if u.any (fun r => substrOf "Inspired by" r) then
        u.filter (fun r => substrOf c.celebrity r) ++
        u.filter (fun r => !substrOf c.celebrity r)
      else u
  | none => u

/-- `sum(WEIGHTS.values())`. -/
def total_weight : Rat := WEIGHTS.foldl (fun acc kv => rAdd acc kv.2) 0

/-- The weighted-sum loop over the score-components dict, with the dynamic
pattern/social re-weighting of `calculate_item_match_score`. -/
def weightedScore (comps : List (String × Rat)) (hasSocial : Bool) : Rat :=
  let pattern_weight := mkRat 15 100
  let social_proof_weight := if hasSocial then mkRat 2 10 else 0
  let new_weights_total := rAdd pattern_weight social_proof_weight
  let scale_factor := rDiv (rSub total_weight new_weights_total) total_weight
  comps.foldl
    (fun acc comp =>
      if comp.1 == "pattern_match" then rAdd acc (rMul comp.2 pattern_weight)
      else if comp.1 == "social_proof_match" && hasSocial then
        rAdd acc (rMul comp.2 social_proof_weight)
      else
        match List.lookup comp.1 WEIGHTS with
        | some w => rAdd acc (rMul comp.2 (rMul w scale_factor))
        | none => acc)
    0

/-- The non-vetoed branch of `calculate_item_match_score`. -/
def calcNoVeto (item : ClothingItem) (profile : StyleProfile)
    (ctx : Option SocialProofContext) : Rat × List String × ClothingItem :=
  let style_match :=
    if item.style_tags.isEmpty then 0
    else rMin (rDivNat (styleTagsScan item profile).1 item.style_tags.length) 1
  let color_match :=
    if item.colors.isEmpty then 0
    else rMin (rDivNat (colorScan item profile).1 item.colors.length) 1
  let fit_match := (fitScan item profile).1
  let occasion_match :=
    if item.occasion_tags.isEmpty then 0
    else rMin (rDivNat (occasionScan item profile).1 item.occasion_tags.length) 1
  let pattern_match := (patternScan item profile).1
  let trending_bonus := item.trending_score
  let social_comp := (socialPart item ctx).1
  let item' := (socialPart item ctx).2.2
  let final_score := weightedScore
    [("style_match", style_match), ("color_match", color_match),
     ("fit_match", fit_match), ("occasion_match", occasion_match),
     ("pattern_match", pattern_match), ("trending_bonus", trending_bonus),
     ("social_proof_match", social_comp)] ctx.isSome
  let top_reasons := (orderedReasons item profile ctx).take 4
  let item'' :=
    match ctx with
    | some c =>
        if mkRat 6 10 < social_comp then
          let ev := if optTruthy c.event then c.event else none
          match item'.social_proof_match with
          | some old =>
              { item' with
                social_proof_match := some (SocialProofMatchInfo.mk
                  c.celebrity social_comp
                  (match ev with | some e => some e | none => old.event)) }
          | none =>
              { item' with
                social_proof_match := some (SocialProofMatchInfo.mk
                  c.celebrity social_comp ev) }
        else item'
    | none => item'
  (final_score, top_reasons, item'')

/-- `RecommendationService.calculate_item_match_score`: score, match
reasons, and the (possibly mutated) item.  The hard veto returns
`(0.0, [])` with the item untouched (the veto checks precede the
social-proof block in the source). -/
def calculate_item_match_score (item : ClothingItem) (profile : StyleProfile)
    (ctx : Option SocialProofContext) : Rat × List String × ClothingItem :=
  if vetoed item profile then (0, [], item)
  else calcNoVeto item profile ctx

/-! ## Complementary Item Finder / Outfit Assembler -/

/-- `complementary_categories` table of `find_complementary_items`. -/
def complementary_categories : List (String × List String) :=
  [("tops", ["bottoms", "shoes", "accessories"]),
   ("shirts", ["pants", "jeans", "shoes", "accessories"]),
   ("t-shirts", ["jeans", "shorts", "shoes", "accessories"]),
   ("blouses", ["skirts", "pants", "accessories"]),
   ("bottoms", ["tops", "shoes", "accessories"]),
   ("pants", ["shirts", "t-shirts", "shoes", "accessories"]),
   ("jeans", ["t-shirts", "shirts", "shoes", "accessories"]),
   ("skirts", ["blouses", "tops", "shoes", "accessories"]),
   ("dresses", ["shoes", "accessories"]),
   ("outerwear", ["tops", "bottoms", "shoes"]),
   ("shoes", ["tops", "bottoms"]),
   ("accessories", ["tops", "bottoms", "dresses"])]

/-- Lowercased subcategory when truthy, else lowercased category (the
category under which `find_complementary_items` files an item). -/
def effectiveCategory (item : ClothingItem) : String :=
  if optTruthy item.subcategory then strLower (item.subcategory.getD "")
  else strLower item.category

/-- Comparator for `sorted(..., key=lambda x: x[1], reverse=True)`. -/
def byScoreDesc {α : Type} (a b : α × Rat) : Bool := decide (b.2 ≤ a.2)

/-- Stable descending insertion of one scored element. -/
def insertDesc {α : Type} (x : α × Rat) : List (α × Rat) → List (α × Rat)
  | [] => [x]
  | y :: ys => if byScoreDesc x y then x :: y :: ys else y :: insertDesc x ys

/-- Python `sorted(..., key=lambda x: x[1], reverse=True)`: stable sort by
descending score.  A stable sort is extensionally unique, so insertion sort
(which the kernel can evaluate) models the library sort exactly. -/
def sortByScoreDesc {α : Type} (l : List (α × Rat)) : List (α × Rat) :=
  l.foldr insertDesc []

/-- `RecommendationService.find_complementary_items`.  Called with a `None`
social context throughout the engine, so the score call cannot mutate. -/
def find_complementary_items (item : ClothingItem)
    (all_items : List ClothingItem) (profile : StyleProfile)
    (limit : Nat) : List String :=
  let target_categories :=
    (List.lookup (effectiveCategory item) complementary_categories).getD []
  let complementary_candidates := all_items.filter fun cand =>
    target_categories.contains (effectiveCategory cand)
  let scored_candidates := complementary_candidates.map fun cand =>
    let color_compatible := are_colors_compatible item.colors cand.colors
    let pc := are_patterns_compatible item.pattern cand.pattern
    let ms := (calculate_item_match_score cand profile none).1
    let ms := if color_compatible then rMul ms (mkRat 12 10) else ms
    let ms :=
      if pc.1 then rMul ms (rAdd 1 (rMul pc.2 (mkRat 3 10)))
      else rMul ms (rSub 1 (rMul (rSub 1 pc.2) (mkRat 5 10)))
    let ms :=
      if !color_compatible && !pc.1 then rMul ms (mkRat 5 10) else ms
    (cand.item_id, ms)
  ((sortByScoreDesc scored_candidates).take limit).map Prod.fst

/-- `next((i for i in all_items if i.item_id == item_id), None)`. -/
def lookupById (all_items : List ClothingItem) (id : String) :
    Option ClothingItem :=
  all_items.find? fun i => i.item_id == id

/-- The essential categories still needed for an outfit, given the occasion
and the categories covered so far (Python builds a set; modelled as the
list in literal order, filtered). -/
def essentialCategoriesFor (occasion : String)
    (outfit_categories : List String) : List String :=
  let base :=
    if ["formal", "business", "date night"].contains (strLower occasion) then
      ["tops", "bottoms", "shoes", "accessories"]
    else ["tops", "bottoms", "shoes"]
  let base :=
    if outfit_categories.contains "dresses" then
      base.filter fun c => !(c == "tops") && !(c == "bottoms")
    else base
  base.filter fun c => !outfit_categories.contains c

/-- One candidate evaluation of the outfit scoring loop: compatibility
hard/soft filters against the current outfit members, scoring (which may
mutate the candidate in place via the social-proof annotation — the items
list is threaded), and the multiplicative adjustments.  State: current
items list and scored list. -/
def scoreOutfitCandidate (profile : StyleProfile)
    (ctx : Option SocialProofContext) (outfit_ids : List String)
    (st : List ClothingItem × List (ClothingItem × Rat)) (idx : Nat) :
    List ClothingItem × List (ClothingItem × Rat) :=
  match st.1[idx]? with
  | none => st
  | some item =>
    let resolved := outfit_ids.filterMap fun oid => lookupById st.1 oid
    let compatible_colors :=
      resolved.all fun oi => are_colors_compatible oi.colors item.colors
    let compatible_patterns :=
      resolved.all fun oi => (are_patterns_compatible oi.pattern item.pattern).1
    let pattern_total_score := resolved.foldl
      (fun acc oi => rAdd acc (are_patterns_compatible oi.pattern item.pattern).2) 0
    if !compatible_colors ||
       (!compatible_patterns && pattern_total_score < mkRat 3 10) then st
    else
      let r := calculate_item_match_score item profile ctx
      let item' := r.2.2
      let ms := r.1
      let ms := if compatible_colors then rMul ms (mkRat 11 10) else ms
      let avg := rDivNat pattern_total_score outfit_ids.length
      let ms :=
        if compatible_patterns then rMul ms (rAdd 1 (rMul avg (mkRat 2 10)))
        else rMul ms (rSub 1 (rMul (rSub 1 avg) (mkRat 2 10)))
      let ms :=
        if ctx.isSome then
          match item'.social_proof_match with
          | some info =>
              if mkRat 5 10 < info.match_score then
                rMul ms (rAdd 1 (rMul info.match_score (mkRat 3 10)))
              else ms
          | none => ms
        else ms
      (st.1.set idx item', st.2 ++ [(item', ms)])

/-- One needed-category iteration of `generate_outfit_recommendation`:
filter to the category, score the candidates, and append the best one.
State: items list, outfit member ids, covered categories. -/
def outfitStep (profile : StyleProfile) (ctx : Option SocialProofContext)
    (st : List ClothingItem × List String × List String) (category : String) :
    List ClothingItem × List String × List String :=
  let items := st.1
  let outfit_ids := st.2.1
  let outfit_cats := st.2.2
  let catIdxs := (List.range items.length).filter fun idx =>
    match items[idx]? with
    | some it =>
        strLower it.category == category ||
        (optTruthy it.subcategory &&
          strLower (it.subcategory.getD "") == category)
    | none => false
  if catIdxs.isEmpty then st
  else
    let r := catIdxs.foldl (scoreOutfitCandidate profile ctx outfit_ids)
      (items, [])
    let items' := r.1
    let scored := r.2
    if scored.isEmpty then (items', outfit_ids, outfit_cats)
    else
      match (sortByScoreDesc scored).head? with
      | some best =>
          (items', outfit_ids ++ [best.1.item_id],
           outfit_cats ++ [strLower best.1.category] ++
             (if optTruthy best.1.subcategory then
               [strLower (best.1.subcategory.getD "")] else []))
      | none => (items', outfit_ids, outfit_cats)

/-- The `pattern_message` summary of `generate_outfit_recommendation`. -/
def patternMessage (patterns : List String) : String :=
  if patterns.isEmpty then "Simple solid colors that work well together"
  else if patterns.all (fun p => strLower p == "solid") then
    "Clean solid colors throughout"
  else if patterns.any (fun p => strLower p == "solid") &&
      1 < patterns.dedup.length then
    "Balanced " ++
      ((patterns.filter fun p => !(strLower p == "solid")).head?.getD "") ++
      " pattern with solid pieces"
  else "Harmonious pattern combinations"

/-- The uuid- and clock-free part of `generate_outfit_recommendation`:
member ids, score, and match reasons of the assembled outfit, or `none`
when fewer than 3 members are reached.  The final state of the threaded
items list is local to the call (its only divergence from the input is the
in-place social-proof annotation, which is absent when `ctx` is `None`, as
at every call site of `generate_recommendations`). -/
def outfitCore (base_item : ClothingItem)
    (all_items : List ClothingItem) (profile : StyleProfile)
    (occasion : String) (ctx : Option SocialProofContext) :
    Option (List String × Rat × List String) :=
  let outfit_cats0 := [strLower base_item.category] ++
    (if optTruthy base_item.subcategory then
      [strLower (base_item.subcategory.getD "")] else [])
  let needed := essentialCategoriesFor occasion outfit_cats0
  let fin := needed.foldl (outfitStep profile ctx)
    (all_items, [base_item.item_id], outfit_cats0)
  let items_f := fin.1
  let outfit_ids := fin.2.1
  let outfit_cats_f := fin.2.2
  if 3 ≤ outfit_ids.length then
    let objs := outfit_ids.filterMap fun id => lookupById items_f id
    let total := objs.foldl
      (fun acc it => rAdd acc (calculate_item_match_score it profile none).1) 0
    let avg := rDivNat total objs.length
    let patterns := objs.filterMap fun it =>
      if optTruthy it.pattern then some (it.pattern.getD "") else none
    let outfit_type :=
      if outfit_cats_f.contains "dresses" then "dress"
      else if outfit_cats_f.contains "tops" &&
          outfit_cats_f.contains "bottoms" then "separates"
      else "outfit"
    let match_reasons :=
      ["Complete " ++ outfit_type ++ " for " ++ occasion,
       "Coordinated colors and " ++ strLower (patternMessage patterns),
       "Matches your personal style preferences"]
    let match_reasons :=
      match ctx with
      | some c =>
          let social_matched := objs.filter fun it =>
            match it.social_proof_match with
            | some info => decide (mkRat 5 10 < info.match_score)
            | none => false
          if !social_matched.isEmpty then
            if objs.length < 2 * social_matched.length then
              ["Inspired by " ++ c.celebrity ++ "s style"] ++ match_reasons
            else
              ["Partially inspired by " ++ c.celebrity ++ "s look"] ++
                match_reasons
          else match_reasons
      | none => match_reasons
    some (outfit_ids, avg, match_reasons)
  else none

/-- `RecommendationService.generate_outfit_recommendation`.  `uuidHex`
stands for the fresh `uuid.uuid4().hex[:8]` draw and `now` for
`datetime.now()`. -/
def generate_outfit_recommendation (base_item : ClothingItem)
    (all_items : List ClothingItem) (profile : StyleProfile)
    (occasion : String) (ctx : Option SocialProofContext)
    (uuidHex : String) (now : Nat) : Option OutfitRecommendation :=
  match outfitCore base_item all_items profile occasion ctx with
  | some parts =>
      some { outfit_id := "outfit_" ++ uuidHex, items := parts.1,
             score := parts.2.1, occasion := occasion,
             match_reasons := parts.2.2, created_at := now,
             social_proof := ctx }
  | none => none

/-! ## Recommendation Orchestrator (`generate_recommendations`) -/

/-- Closet-affinity test of the first bucket: the (duck-typed) color,
pattern, or style-tag compatibility between a catalog item and one closet
item. -/
def closetAffine (item : ClothingItem) (closet_item : UserClosetItem) : Bool :=
  are_colors_compatible item.colors closet_item.colors ||
  (are_patterns_compatible item.pattern closet_item.pattern).1 ||
  item.style_tags.any fun tag => closet_item.style_tags.contains tag

/-- Scores a list of items against the profile and keeps the top
`bucket_size` by descending score (stable). -/
def topScored (items : List ClothingItem) (profile : StyleProfile)
    (bucket_size : Nat) : List ClothingItem :=
  (((items.map fun item =>
      (item, (calculate_item_match_score item profile none).1)) |> sortByScoreDesc).take bucket_size).map Prod.fst

/-- The dedup-with-backfill loop of `generate_recommendations`: seen ids,
append unseen pool items, stop once `total` items are collected. -/
def backfill (pool : List ClothingItem) (acc : List ClothingItem)
    (seen : List String) (total : Nat) : List ClothingItem :=
  match pool with
  | [] => acc
  | item :: rest =>
      let st :=
        if seen.contains item.item_id then (acc, seen)
        else (acc ++ [item], seen ++ [item.item_id])
      if st.1.length == total then st.1
      else backfill rest st.1 st.2 total

/-- One step of the order-preserving id dedup (first seen wins). -/
def dedupStep (st : List ClothingItem × List String) (item : ClothingItem) :
    List ClothingItem × List String :=
  if st.2.contains item.item_id then st
  else (st.1 ++ [item], st.2 ++ [item.item_id])

/-- Deduplicate by item id, preserving order (first seen wins). -/
def dedupById (items : List ClothingItem) :
    List ClothingItem × List String :=
  items.foldl dedupStep ([], [])

/-- The catalog minus the items already owned by the user. -/
def filteredItems (user : UserProfile) (available_items : List ClothingItem) :
    List ClothingItem :=
  available_items.filter fun item =>
    !(user.closet_items.map fun i => i.item_id).contains item.item_id

/-- The social-proof bucket: items scoring above 0.4 against the context,
ranked by that score (empty without a context). -/
def socialSelected (filtered_items : List ClothingItem)
    (social_proof_context : Option SocialProofContext) (bucket_size : Nat) :
    List ClothingItem :=
  match social_proof_context with
  | some sp =>
      (((sortByScoreDesc ((filtered_items.map fun item =>
            (item, calculate_social_proof_match item sp)).filter
          fun x => decide (mkRat 4 10 < x.2))).take bucket_size)).map Prod.fst
  | none => []

/-- The item-selection stage of `generate_recommendations`: the five
buckets, the priority merge with dedup, the best-guess backfill, and the
final truncation. -/
def selectRecommendedItems (user : UserProfile)
    (filtered_items : List ClothingItem) (user_style_profile : StyleProfile)
    (social_proof_context : Option SocialProofContext) : List ClothingItem :=
  let total := MAX_RECOMMENDATIONS
  let bucket_size := max 1 (total / 5)
  let best_guess_size := total - 4 * bucket_size
  let closet_items := filtered_items.filter fun item =>
    user.closet_items.any fun closet_item => closetAffine item closet_item
  let closet_selected := topScored closet_items user_style_profile bucket_size
  let social_selected := socialSelected filtered_items social_proof_context
    bucket_size
  let trending_items := filtered_items.filter fun item => item.is_trending
  let trending_selected := topScored trending_items user_style_profile bucket_size
  let favorite_brands := user.favorite_brands.getD []
  let similar_brand_items := filtered_items.filter fun item =>
    !favorite_brands.contains item.brand &&
    favorite_brands.any fun b =>
      substrOf (strLower b) (strLower item.brand) ||
      substrOf (strLower item.brand) (strLower b)
  let similar_brand_selected :=
    topScored similar_brand_items user_style_profile bucket_size
  let all_scored := (filtered_items.map fun item =>
    (item, (calculate_item_match_score item user_style_profile none).1)) |> sortByScoreDesc
  let already_selected_ids :=
    (closet_selected ++ social_selected ++ trending_selected ++
      similar_brand_selected).map fun i => i.item_id
  let best_guess_candidates := (all_scored.map Prod.fst).filter fun item =>
    !already_selected_ids.contains item.item_id
  let best_guess_selected := best_guess_candidates.take best_guess_size
  let final_items := closet_selected ++ social_selected ++ trending_selected ++
    similar_brand_selected ++ best_guess_selected
  let deduped := dedupById final_items
  let deduped_items :=
    if deduped.1.length < total then
      backfill (all_scored.map Prod.fst) deduped.1 deduped.2 total
    else deduped.1
  deduped_items.take total

/-- One anchor iteration of the outfit stage: attempt an outfit for the
anchor (first occasion tag, default "Everyday Casual"), keep it when it
scores above 0.6. -/
def buildOutfitStep (filtered_items : List ClothingItem)
    (user_style_profile : StyleProfile) (uuidHexes : Nat → String) (now : Nat)
    (acc : List OutfitRecommendation) (pair : Nat × ClothingItem) :
    List OutfitRecommendation :=
  let occasion := pair.2.occasion_tags.head?.getD "Everyday Casual"
  match generate_outfit_recommendation pair.2 filtered_items
    user_style_profile occasion none (uuidHexes pair.1) now with
  | some outfit =>
      if mkRat 6 10 < outfit.score then acc ++ [outfit] else acc
  | none => acc

/-- The outfit stage of `generate_recommendations`: one outfit attempt per
anchor (with its positional uuid draw), kept when scoring above 0.6. -/
def buildOutfits (anchors : List (Nat × ClothingItem))
    (filtered_items : List ClothingItem) (user_style_profile : StyleProfile)
    (uuidHexes : Nat → String) (now : Nat) : List OutfitRecommendation :=
  anchors.foldl (buildOutfitStep filtered_items user_style_profile uuidHexes now) []

/-- The content of an outfit recommendation apart from its freshly drawn
uuid and its creation timestamp. -/
def stripOutfit (o : OutfitRecommendation) :
    List String × Rat × String × List String × Option SocialProofContext :=
  (o.items, o.score, o.occasion, o.match_reasons, o.social_proof)

/-- The content of a recommendation response apart from its timestamp and
the outfit uuids. -/
def stripResponse (r : RecommendationResponse) :
    String × List ItemRecommendation ×
    List (List String × Rat × String × List String × Option SocialProofContext) ×
    Option String :=
  (r.user_id, r.recommended_items, r.recommended_outfits.map stripOutfit,
   r.recommendation_context)

/-- The `ItemRecommendation` built for one selected item (the source calls
`calculate_item_match_score` twice, once for the score and once for the
reasons; both calls return the same value). -/
def itemRecommendationFor (item : ClothingItem)
    (filtered_items : List ClothingItem) (user_style_profile : StyleProfile) :
    ItemRecommendation :=
  { item_id := item.item_id,
    score := (calculate_item_match_score item user_style_profile none).1,
    match_reasons :=
      (calculate_item_match_score item user_style_profile none).2.1,
    complementary_items :=
      find_complementary_items item filtered_items user_style_profile 3 }

/-- `RecommendationService.generate_recommendations`.  `uuidHexes i` models
the uuid drawn for the outfit built around the i-th anchor; `now` models
`datetime.now()`. -/
def generate_recommendations (user : UserProfile)
    (available_items : List ClothingItem) (context : Option String)
    (social_proof_context : Option SocialProofContext)
    (uuidHexes : Nat → String) (now : Nat) : RecommendationResponse :=
  let user_style_profile := generate_user_style_profile user
  let filtered_items := filteredItems user available_items
  let deduped_items := selectRecommendedItems user filtered_items
    user_style_profile social_proof_context
  let item_recommendations := deduped_items.map fun item =>
    itemRecommendationFor item filtered_items user_style_profile
  let outfit_recommendations := buildOutfits (deduped_items.take 5).enum
    filtered_items user_style_profile uuidHexes now
  { user_id := user.user_id, timestamp := now,
    recommended_items := item_recommendations,
    recommended_outfits := outfit_recommendations,
    recommendation_context := context }

/-- The catalog-supplied content of a clothing item: every field except the
engine-attached `social_proof_match` annotation (used to track that outfit
assembly changes nothing else about the threaded items). -/
def coreOf (i : ClothingItem) : ClothingItem :=
  { i with social_proof_match := none }

/-- Color compatibility between two outfit member ids, resolved against the
catalog: any items the two ids denote have `are_colors_compatible` colors. -/
def pairColorCompat (all_items : List ClothingItem) (id1 id2 : String) : Prop :=
  ∀ a b, lookupById all_items id1 = some a → lookupById all_items id2 = some b →
    are_colors_compatible a.colors b.colors = true

def scoredOk (all_items : List ClothingItem) (ids : List String)
    (scored : List (ClothingItem × Rat)) : Prop :=
  ∀ pr ∈ scored, ∀ id1 ∈ ids, pairColorCompat all_items id1 pr.1.item_id

/-- Witness catalog for the outfit-assembly claim: a top, a bottom, and a
pair of shoes, all black solids tagged casual. -/
def w5_items : List ClothingItem :=
  [{ item_id := "wa", category := "tops", colors := ["black"],
     pattern := some "solid", occasion_tags := ["casual"] },
   { item_id := "wb", category := "bottoms", colors := ["black"],
     pattern := some "solid", occasion_tags := ["casual"] },
   { item_id := "wc", category := "shoes", colors := ["black"],
     pattern := some "solid", occasion_tags := ["casual"] }]

/-- The outfit assembled from `w5_items` around its first item. -/
def w5_outfit : OutfitRecommendation :=
  (generate_outfit_recommendation
    { item_id := "wa", category := "tops", colors := ["black"],
      pattern := some "solid", occasion_tags := ["casual"] }
    w5_items [] "casual" none "cafe0000" 5).getD
    { outfit_id := "", items := [], score := 0, occasion := "" }

/-! ## Helper lemmas -/

theorem list_any_congr {α : Type} (l : List α) (f g : α → Bool)
    (h : ∀ a, f a = g a) : l.any f = l.any g := by
  induction l with
  | nil => rfl
  | cons a t ih => simp only [List.any_cons, h a, ih]

theorem bool_or_and_swap (a b c d : Bool) :
    ((a && b) || (c && d)) = ((d && c) || (b && a)) := by
  revert a b c d; decide

theorem complementHit_symm (p1 p2 : String) :
    complementHit p1 p2 = complementHit p2 p1 := by
  unfold complementHit
  exact list_any_congr _ _ _ fun r => Bool.or_comm _ _

theorem clashHit_symm (p1 p2 : String) : clashHit p1 p2 = clashHit p2 p1 :=
  Bool.or_comm _ _

theorem patCompat_symm (p1 p2 : String) : patCompat p1 p2 = patCompat p2 p1 := by
  unfold patCompat
  by_cases h : p1 = p2
  · rw [h]
  · have h1 : (p1 == p2) = false := by simp [h]
    have h2 : (p2 == p1) = false := by simp [Ne.symm h]
    rw [h1, h2]
    simp only [Bool.false_eq_true, if_false]
    rw [Bool.or_comm (p2 == "solid") (p1 == "solid"),
        complementHit_symm p2 p1, clashHit_symm p2 p1]

theorem are_patterns_compatible_symm (o1 o2 : Option String) :
    are_patterns_compatible o1 o2 = are_patterns_compatible o2 o1 :=
  patCompat_symm _ _

theorem patCompat_cases (p1 p2 : String) :
    patCompat p1 p2 = (false, 0) ∨ patCompat p1 p2 = (false, mkRat 2 10) ∨
    patCompat p1 p2 = (true, mkRat 5 10) ∨
    patCompat p1 p2 = (true, mkRat 7 10) ∨
    patCompat p1 p2 = (true, mkRat 9 10) ∨ patCompat p1 p2 = (true, 1) := by
  unfold patCompat
  repeat' split
  all_goals simp

/-- C10: the score component of `are_patterns_compatible` is always one of
0, 0.2, 0.5, 0.7, 0.9, 1.0; the boolean component is true exactly when that
score is at least 0.5; and the function is symmetric in its two arguments. -/
theorem patterns_compatible_range_bool_symm (o1 o2 : Option String) :
    (are_patterns_compatible o1 o2).2 ∈
        ([0, mkRat 2 10, mkRat 5 10, mkRat 7 10, mkRat 9 10, 1] : List Rat) ∧
    ((are_patterns_compatible o1 o2).1 = true ↔
        mkRat 1 2 ≤ (are_patterns_compatible o1 o2).2) ∧
    are_patterns_compatible o1 o2 = are_patterns_compatible o2 o1 := by
  refine ⟨?_, ?_, are_patterns_compatible_symm o1 o2⟩ <;>
    rcases patCompat_cases (strLower (defaultedPattern o1))
        (strLower (defaultedPattern o2)) with h | h | h | h | h | h <;>
    unfold are_patterns_compatible <;> rw [h] <;> decide

/-- C6 counterexample: the claim states `are_patterns_compatible(X, "solid")`
returns `(true, 1.0)` for every pattern X, but at X = "solid" the
same-pattern rule fires first and the result is `(true, 0.7)`. -/
theorem patterns_solid_solid_not_one :
    are_patterns_compatible (some "solid") (some "solid") ≠ (true, 1) := by
  decide

/-- C6 amended: `are_patterns_compatible(None, None) = (true, 0.7)`, and for
every nonempty pattern X whose lowercase form is not "solid",
`are_patterns_compatible(X, "solid") = (true, 1.0)`. -/
theorem patterns_none_none_and_solid :
    are_patterns_compatible none none = (true, mkRat 7 10) ∧
    ∀ X : String, X ≠ "" → strLower X ≠ "solid" →
      are_patterns_compatible (some X) (some "solid") = (true, 1) := by
  constructor
  · decide
  · intro X hne hsolid
    have hX : (X == "") = false := by simp [hne]
    unfold are_patterns_compatible
    simp only [defaultedPattern, hX, Bool.false_eq_true, if_false]
    unfold patCompat
    simp only [ite_self]
    have hsl : strLower "solid" = "solid" := by decide
    rw [hsl]
    have h1 : (strLower X == "solid") = false := by simp [hsolid]
    rw [h1]
    simp only [Bool.false_eq_true, if_false, Bool.false_or]
    rfl

/-- C6 witness: the amended statement applied at X = "stripes". -/
theorem patterns_none_none_and_solid_witness :
    are_patterns_compatible (some "stripes") (some "solid") = (true, 1) :=
  patterns_none_none_and_solid.2 "stripes" (by decide) (by decide)

theorem colorsCompatLower_symm (c1 c2 : List String) :
    colorsCompatLower c1 c2 = colorsCompatLower c2 c1 := by
  unfold colorsCompatLower
  rw [Bool.or_comm (c2.any fun c => neutral_colors.contains c)
        (c1.any fun c => neutral_colors.contains c)]
  rw [list_any_congr complementary_pairs
        (fun g => (c2.any fun c => g.1.contains c) &&
            (c1.any fun c => g.2.contains c) ||
            (c2.any fun c => g.2.contains c) &&
            (c1.any fun c => g.1.contains c)) _
        fun g => bool_or_and_swap _ _ _ _]
  rw [list_any_congr color_families
        (fun f => c2.any (inFamily f) && c1.any (inFamily f)) _
        fun f => Bool.and_comm _ _]

/-- C9: `are_colors_compatible` is symmetric in its two arguments. -/
theorem are_colors_compatible_symm (colors1 colors2 : List String) :
    are_colors_compatible colors1 colors2 =
      are_colors_compatible colors2 colors1 :=
  colorsCompatLower_symm _ _

/-! ## Dict lemmas and claim C8 -/

theorem getP_setP_self (p : StyleProfile) (k : String) (v : Rat) :
    getP (setP p k v) k = some v := by
  induction p with
  | nil => simp [setP, getP, List.lookup]
  | cons kv rest ih =>
    obtain ⟨k', v'⟩ := kv
    unfold setP
    by_cases h : k' = k
    · simp [h, getP, List.lookup]
    · have hb : (k' == k) = false := by simp [h]
      have hb2 : (k == k') = false := by simp [Ne.symm h]
      simp only [hb, Bool.false_eq_true, if_false]
      simpa [getP, List.lookup, hb2] using ih

theorem getP_setP_other (p : StyleProfile) (k k' : String) (v : Rat)
    (h : k ≠ k') : getP (setP p k' v) k = getP p k := by
  induction p with
  | nil =>
    have hk : (k == k') = false := by simp [h]
    simp [setP, getP, List.lookup, hk]
  | cons kv rest ih =>
    obtain ⟨k0, v0⟩ := kv
    unfold setP
    by_cases h0 : k0 = k'
    · have hb : (k0 == k') = true := by simp [h0]
      have hk : (k == k') = false := by simp [h]
      have hk0 : (k == k0) = false := by simp [h0 ▸ h]
      simp only [hb, if_true]
      simp [getP, List.lookup, hk, hk0]
    · have hb : (k0 == k') = false := by simp [h0]
      simp only [hb, Bool.false_eq_true, if_false]
      by_cases hkk0 : k = k0
      · simp [getP, List.lookup, hkk0]
      · have hx : (k == k0) = false := by simp [hkk0]
        simpa [getP, List.lookup, hx] using ih

theorem feedbackStep_pres (acc : StyleProfile) (kv : String × Rat) (k : String)
    (h : k ≠ kv.1) : getP (feedbackStep acc kv) k = getP acc k :=
  getP_setP_other acc k kv.1 _ h

theorem fold_feedback_not_mem (fb : StyleProfile) (acc : StyleProfile)
    (k : String) (h : ∀ kv ∈ fb, kv.1 ≠ k) :
    getP (fb.foldl feedbackStep acc) k = getP acc k := by
  induction fb generalizing acc with
  | nil => rfl
  | cons kv t ih =>
    rw [List.foldl_cons,
        ih _ (fun x hx => h x (List.mem_cons_of_mem _ hx))]
    exact feedbackStep_pres acc kv k
      (fun he => h kv (List.mem_cons_self _ _) he.symm)

theorem fold_feedback_keeps (fb : StyleProfile) (acc : StyleProfile)
    (k : String) (hd : strStartsWith k "disliked_" = true)
    (h : getP acc k = some (-1)) :
    getP (fb.foldl feedbackStep acc) k = some (-1) := by
  induction fb generalizing acc with
  | nil => exact h
  | cons kv t ih =>
    rw [List.foldl_cons]
    apply ih
    by_cases he : k = kv.1
    · unfold feedbackStep feedbackVal
      rw [← he, getP_setP_self]
      simp [hd]
    · rw [feedbackStep_pres acc kv k he]
      exact h

theorem fold_feedback_disliked (fb : StyleProfile) (acc : StyleProfile)
    (k : String) (v : Rat) (hmem : (k, v) ∈ fb)
    (hd : strStartsWith k "disliked_" = true) :
    getP (fb.foldl feedbackStep acc) k = some (-1) := by
  induction fb generalizing acc with
  | nil => cases hmem
  | cons kv t ih =>
    rw [List.foldl_cons]
    rcases List.mem_cons.mp hmem with heq | hmem'
    · subst heq
      apply fold_feedback_keeps t _ k hd
      show getP (setP acc k (feedbackVal acc (k, v))) k = some (-1)
      rw [getP_setP_self]
      unfold feedbackVal
      simp [hd]
    · exact ih _ hmem' 

theorem r_zero_add (a : Rat) : rAdd 0 a = a := by
  unfold rAdd
  norm_num

theorem fold_feedback_blend (fb : StyleProfile) (acc : StyleProfile)
    (k : String) (v : Rat) (hnd : (fb.map Prod.fst).Nodup)
    (hmem : (k, v) ∈ fb) (hd : strStartsWith k "disliked_" = false) :
    getP (fb.foldl feedbackStep acc) k =
      some (rAdd ((getP acc k).getD 0) (rMul v (mkRat 2 10))) := by
  induction fb generalizing acc with
  | nil => cases hmem
  | cons kv t ih =>
    rw [List.foldl_cons]
    rw [List.map_cons, List.nodup_cons] at hnd
    rcases List.mem_cons.mp hmem with heq | hmem'
    · subst heq
      have hnotin : ∀ x ∈ t, x.1 ≠ k := by
        intro x hx hxk
        have hv : x.1 ∈ t.map Prod.fst := List.mem_map_of_mem Prod.fst hx
        rw [hxk] at hv
        exact hnd.1 hv
      rw [fold_feedback_not_mem t _ k hnotin]
      show getP (setP acc k (feedbackVal acc (k, v))) k = _
      rw [getP_setP_self]
      congr 1
      unfold feedbackVal
      simp only [hd, Bool.false_eq_true, if_false]
      cases hg : getP acc k with
      | none => simp [hg, r_zero_add]
      | some v0 => simp [hg]
    · have hkt : k ∈ t.map Prod.fst := List.mem_map_of_mem Prod.fst hmem'
      have hne : k ≠ kv.1 := fun he => hnd.1 (he ▸ hkt)
      rw [ih _ hnd.2 hmem', feedbackStep_pres acc kv k hne]

/-- C8: in `combine_style_profiles`, every `disliked_`-prefixed key present in
the feedback sub-profile maps to exactly -1.0 in the combined profile,
regardless of any quiz or closet value for that key; every other feedback key
is blended with weight 0.2 on top of the quiz/closet blend. -/
theorem combine_profiles_disliked_override (quiz closet feedback : StyleProfile)
    (k : String) (v : Rat) :
    ((k, v) ∈ feedback → strStartsWith k "disliked_" = true →
      getP (combine_style_profiles quiz closet feedback) k = some (-1)) ∧
    ((feedback.map Prod.fst).Nodup → (k, v) ∈ feedback →
      strStartsWith k "disliked_" = false →
      getP (combine_style_profiles quiz closet feedback) k =
        some (rAdd ((getP (blend_quiz_closet quiz closet) k).getD 0)
          (rMul v (mkRat 2 10)))) := by
  constructor
  · intro hmem hd
    exact fold_feedback_disliked feedback _ k v hmem hd
  · intro hnd hmem hd
    exact fold_feedback_blend feedback _ k v hnd hmem hd

/-- C8 witness: concrete instantiation of both halves, with a disliked color
key that the quiz profile also mentions (override, not blend) and a liked
color key blended at weight 0.2. -/
theorem combine_profiles_disliked_override_witness :
    getP (combine_style_profiles [("disliked_color_red", 1)] []
        [("disliked_color_red", -1), ("liked_color_blue", 1)])
      "disliked_color_red" = some (-1) ∧
    getP (combine_style_profiles [("disliked_color_red", 1)] []
        [("disliked_color_red", -1), ("liked_color_blue", 1)])
      "liked_color_blue" =
      some (rAdd ((getP (blend_quiz_closet [("disliked_color_red", 1)] [])
        "liked_color_blue").getD 0) (rMul 1 (mkRat 2 10))) :=
  ⟨(combine_profiles_disliked_override [("disliked_color_red", 1)] []
      [("disliked_color_red", -1), ("liked_color_blue", 1)]
      "disliked_color_red" (-1)).1 (by decide) (by decide),
   (combine_profiles_disliked_override [("disliked_color_red", 1)] []
      [("disliked_color_red", -1), ("liked_color_blue", 1)]
      "liked_color_blue" 1).2 (by decide) (by decide) (by decide)⟩

/-! ## Claim C1: the hard dislike veto -/

/-- C1: for every item, profile, and optional social-proof context, if any
style tag has a strictly-negative `disliked_tag_*` entry, or any color a
strictly-negative `disliked_color_*` entry, or the (nonempty) pattern a
strictly-negative `disliked_pattern_*` entry, then
`calculate_item_match_score` returns exactly `(0.0, [])`, regardless of all
other item attributes and of the social-proof context. -/
theorem item_match_score_hard_veto (item : ClothingItem)
    (profile : StyleProfile) (ctx : Option SocialProofContext)
    (h : (∃ tag ∈ item.style_tags, ∃ v,
            getP profile ("disliked_tag_" ++ strLower tag) = some v ∧ v < 0) ∨
         (∃ c ∈ item.colors, ∃ v,
            getP profile ("disliked_color_" ++ strLower c) = some v ∧ v < 0) ∨
         (∃ p, item.pattern = some p ∧ p ≠ "" ∧ ∃ v,
            getP profile ("disliked_pattern_" ++ strLower p) = some v ∧ v < 0)) :
    (calculate_item_match_score item profile ctx).1 = 0 ∧
    (calculate_item_match_score item profile ctx).2.1 = [] := by
  have hv : vetoed item profile = true := by
    unfold vetoed
    simp only [Bool.or_eq_true, List.any_eq_true]
    rcases h with ⟨tag, htag, v, hget, hneg⟩ | ⟨c, hc, v, hget, hneg⟩ |
      ⟨p, hp, hpne, v, hget, hneg⟩
    · exact Or.inl (Or.inl ⟨tag, htag, by simp [negP, hget, hneg]⟩)
    · exact Or.inl (Or.inr ⟨c, hc, by simp [negP, hget, hneg]⟩)
    · refine Or.inr ?_
      rw [hp]
      simp [optTruthy, hpne, negP, hget, hneg]
  refine ⟨?_, ?_⟩ <;> unfold calculate_item_match_score <;> rw [hv] <;> simp

/-- C1 witness: a disliked style tag vetoes a concrete item. -/
theorem item_match_score_hard_veto_witness :
    (calculate_item_match_score
      { item_id := "i1", category := "tops", style_tags := ["formal"] }
      [("disliked_tag_formal", -1)] none).1 = 0 ∧
    (calculate_item_match_score
      { item_id := "i1", category := "tops", style_tags := ["formal"] }
      [("disliked_tag_formal", -1)] none).2.1 = [] :=
  item_match_score_hard_veto _ _ _
    (Or.inl ⟨"formal", by decide, -1, by decide, by decide⟩)

/-! ## Claim C3: the in-place social-proof mutation (code bug) -/

/-- C3 (code bug): `calculate_item_match_score` attaches
`social_proof_match` onto the shared catalog item in place whenever the
social-proof score is positive, contradicting the never-mutates contract:
on a black solid dress matched against a matching celebrity context, the
returned item differs from the input item (which had no such attribute). -/
theorem social_proof_mutates_catalog_item :
    ((calculate_item_match_score
        { item_id := "d1", category := "dresses", colors := ["black"],
          pattern := some "solid" }
        []
        (some { celebrity := "X", outfit_tags := ["dress"],
                outfit_description := some "black dress",
                patterns := ["solid"], colors := ["black"] })).2.2).social_proof_match
      ≠ none := by decide

/-! ## Claim C7: match-reason list shape -/

/-- C7 counterexample: without any social-proof context the reason list can
still contain 4 reasons (the cap in the code is unconditionally 4, not 3):
a concrete item matching style, color, fit, and occasion keys yields 4. -/
theorem reasons_not_capped_at_three_without_social :
    ¬(((calculate_item_match_score
        { item_id := "i2", category := "tops", style_tags := ["casual"],
          colors := ["black"], fit_type := some "slim",
          occasion_tags := ["work"] }
        [("style_casual", 1), ("color_black", 1), ("top_fit_slim", 1),
         ("occasion_work", 1)]
        none).2.1).length ≤ 3) := by decide

theorem dedupReasons_aux_nodup (rs acc : List String) (h : acc.Nodup) :
    (rs.foldl (fun acc r => if acc.contains r then acc else acc ++ [r]) acc).Nodup := by
  induction rs generalizing acc with
  | nil => exact h
  | cons r t ih =>
    rw [List.foldl_cons]
    by_cases hc : r ∈ acc
    · have hct : acc.contains r = true := by simpa using hc
      rw [hct]
      simp only [if_true]
      exact ih acc h
    · have hcf : acc.contains r = false := by simpa using hc
      rw [hcf]
      simp only [Bool.false_eq_true, if_false]
      have hnd : (acc ++ [r]).Nodup := by simp [List.nodup_append, h, hc]
      exact ih _ hnd

theorem dedupReasons_nodup (rs : List String) : (dedupReasons rs).Nodup :=
  dedupReasons_aux_nodup rs [] List.nodup_nil

theorem orderedReasons_nodup (item : ClothingItem) (profile : StyleProfile)
    (ctx : Option SocialProofContext) :
    (orderedReasons item profile ctx).Nodup := by
  unfold orderedReasons
  have hu := dedupReasons_nodup (rawReasons item profile ctx)
  cases ctx with
  | none => exact hu
  | some c =>
    by_cases hi : (dedupReasons (rawReasons item profile (some c))).any
        (fun r => substrOf "Inspired by" r)
    · simp only [hi, if_true]
      exact ((List.filter_append_perm _ _).symm.nodup hu)
    · simp only [hi, Bool.false_eq_true, if_false]
      exact hu

theorem calc_reasons_eq (item : ClothingItem) (profile : StyleProfile)
    (ctx : Option SocialProofContext) :
    (calculate_item_match_score item profile ctx).2.1 =
      if vetoed item profile then []
      else (orderedReasons item profile ctx).take 4 := by
  unfold calculate_item_match_score calcNoVeto
  split <;> rfl

theorem take_filter_split (A B : List String) (P : String → Bool)
    (hA : ∀ a ∈ A, P a = true) (hB : ∀ b ∈ B, P b = false) (n : Nat) :
    (A ++ B).take n =
      ((A ++ B).take n).filter P ++
      ((A ++ B).take n).filter (fun x => !P x) := by
  rw [List.take_append_eq_append_take]
  have hA' : ∀ a ∈ A.take n, P a = true :=
    fun a ha => hA a (List.take_subset n A ha)
  have hB' : ∀ b ∈ B.take (n - A.length), P b = false :=
    fun b hb => hB b (List.take_subset _ B hb)
  rw [List.filter_append, List.filter_append]
  rw [List.filter_eq_self.mpr hA']
  rw [List.filter_eq_nil_iff.mpr (fun b hb => by simp [hB' b hb])]
  rw [List.filter_eq_nil_iff.mpr (fun a ha => by simp [hA' a ha])]
  rw [List.filter_eq_self.mpr (fun b hb => by simp [hB' b hb])]
  simp

/-- C7 amended: the reason list of `calculate_item_match_score` is
deduplicated and capped at 4 reasons with or without a social-proof context
(the code caps at 4 unconditionally); and when a context is present and an
"Inspired by" reason is among the returned reasons, every reason mentioning
the celebrity precedes every reason that does not. -/
theorem match_reasons_dedup_cap_social_first (item : ClothingItem)
    (profile : StyleProfile) (ctx : Option SocialProofContext) :
    ((calculate_item_match_score item profile ctx).2.1).Nodup ∧
    ((calculate_item_match_score item profile ctx).2.1).length ≤ 4 ∧
    (∀ c, ctx = some c →
      (∃ r ∈ (calculate_item_match_score item profile ctx).2.1,
        substrOf "Inspired by" r = true) →
      (calculate_item_match_score item profile ctx).2.1 =
        ((calculate_item_match_score item profile ctx).2.1).filter
          (fun r => substrOf c.celebrity r) ++
        ((calculate_item_match_score item profile ctx).2.1).filter
          (fun r => !substrOf c.celebrity r)) := by
  rw [calc_reasons_eq]
  by_cases hv : vetoed item profile
  · simp [hv]
  · simp only [hv, Bool.false_eq_true, if_false]
    refine ⟨(List.take_sublist 4 _).nodup (orderedReasons_nodup item profile ctx),
      List.length_take_le 4 _, ?_⟩
    intro c hc hins
    subst hc
    unfold orderedReasons
    by_cases hi : (dedupReasons (rawReasons item profile (some c))).any
        (fun r => substrOf "Inspired by" r)
    · simp only [hi, if_true]
      exact take_filter_split _ _ _
        (fun a ha => List.of_mem_filter ha)
        (fun b hb => by simpa using List.of_mem_filter hb) 4
    · exfalso
      unfold orderedReasons at hins
      simp only [hi, Bool.false_eq_true, if_false] at hins
      obtain ⟨r, hr, hrs⟩ := hins
      have : (dedupReasons (rawReasons item profile (some c))).any
          (fun r => substrOf "Inspired by" r) = true :=
        List.any_eq_true.mpr ⟨r, List.take_subset 4 _ hr, hrs⟩
      rw [this] at hi
      exact hi rfl

/-- C7 witness: on a concrete item with a matching social-proof context, an
Inspired-by reason is present and the celebrity-first split holds. -/
theorem match_reasons_dedup_cap_social_first_witness :
    (calculate_item_match_score
        { item_id := "d2", category := "dresses", colors := ["black"],
          pattern := some "solid" }
        []
        (some { celebrity := "X", outfit_tags := ["dress"],
                outfit_description := some "black dress",
                patterns := ["solid"], colors := ["black"] })).2.1 =
      ((calculate_item_match_score
        { item_id := "d2", category := "dresses", colors := ["black"],
          pattern := some "solid" }
        []
        (some { celebrity := "X", outfit_tags := ["dress"],
                outfit_description := some "black dress",
                patterns := ["solid"], colors := ["black"] })).2.1).filter
        (fun r => substrOf "X" r) ++
      ((calculate_item_match_score
        { item_id := "d2", category := "dresses", colors := ["black"],
          pattern := some "solid" }
        []
        (some { celebrity := "X", outfit_tags := ["dress"],
                outfit_description := some "black dress",
                patterns := ["solid"], colors := ["black"] })).2.1).filter
        (fun r => !substrOf "X" r) :=
  (match_reasons_dedup_cap_social_first
      { item_id := "d2", category := "dresses", colors := ["black"],
        pattern := some "solid" }
      []
      (some { celebrity := "X", outfit_tags := ["dress"],
              outfit_description := some "black dress",
              patterns := ["solid"], colors := ["black"] })).2.2
    { celebrity := "X", outfit_tags := ["dress"],
      outfit_description := some "black dress",
      patterns := ["solid"], colors := ["black"] }
    rfl ⟨"Inspired by Xs style", by decide, by decide⟩

/-! ## Claim C2: selection invariants of the orchestrator -/

theorem insertDesc_perm {α : Type} (x : α × Rat) (l : List (α × Rat)) :
    (insertDesc x l).Perm (x :: l) := by
  induction l with
  | nil => exact List.Perm.refl _
  | cons y ys ih =>
    unfold insertDesc
    by_cases h : byScoreDesc x y
    · rw [if_pos h]
    · rw [if_neg h]
      exact (ih.cons y).trans (List.Perm.swap x y ys)

theorem sortByScoreDesc_perm {α : Type} (l : List (α × Rat)) :
    (sortByScoreDesc l).Perm l := by
  induction l with
  | nil => exact List.Perm.refl _
  | cons x xs ih =>
    exact (insertDesc_perm x (sortByScoreDesc xs)).trans (ih.cons x)

theorem sortDesc_fst_mem (pairs : List (ClothingItem × Rat)) (y : ClothingItem)
    (hy : y ∈ (sortByScoreDesc pairs).map Prod.fst) :
    ∃ pr ∈ pairs, pr.1 = y := by
  obtain ⟨pr, hpr, he⟩ := List.mem_map.mp hy
  exact ⟨pr, (sortByScoreDesc_perm pairs).mem_iff.mp hpr, he⟩

theorem sortDesc_take_fst_mem (pairs : List (ClothingItem × Rat)) (n : Nat)
    (y : ClothingItem)
    (hy : y ∈ ((sortByScoreDesc pairs).take n).map Prod.fst) :
    ∃ pr ∈ pairs, pr.1 = y := by
  obtain ⟨pr, hpr, he⟩ := List.mem_map.mp hy
  exact ⟨pr,
    (sortByScoreDesc_perm pairs).mem_iff.mp (List.take_subset n _ hpr),
    he⟩

theorem topScored_subset (items : List ClothingItem) (profile : StyleProfile)
    (n : Nat) : ∀ x ∈ topScored items profile n, x ∈ items := by
  intro x hx
  obtain ⟨pr, hpr, he⟩ := sortDesc_take_fst_mem _ n x hx
  obtain ⟨i, hi, hie⟩ := List.mem_map.mp hpr
  rw [← he, ← hie]
  exact hi

theorem dedup_fold_inv (items : List ClothingItem) :
    ∀ acc : List ClothingItem × List String,
      acc.2 = acc.1.map (fun i => i.item_id) → acc.2.Nodup →
      (items.foldl dedupStep acc).2 =
        (items.foldl dedupStep acc).1.map (fun i => i.item_id) ∧
      (items.foldl dedupStep acc).2.Nodup ∧
      ∀ x ∈ (items.foldl dedupStep acc).1, x ∈ acc.1 ∨ x ∈ items := by
  induction items with
  | nil =>
    intro acc h1 h2
    exact ⟨h1, h2, fun x hx => Or.inl hx⟩
  | cons it t ih =>
    intro acc h1 h2
    rw [List.foldl_cons]
    by_cases hc : it.item_id ∈ acc.2
    · have hstep : dedupStep acc it = acc := by
        unfold dedupStep
        rw [if_pos (show acc.2.contains it.item_id = true from by simpa using hc)]
      rw [hstep]
      obtain ⟨a, b, c⟩ := ih acc h1 h2
      exact ⟨a, b, fun x hx => (c x hx).imp id (List.mem_cons_of_mem it)⟩
    · have hstep : dedupStep acc it = (acc.1 ++ [it], acc.2 ++ [it.item_id]) := by
        unfold dedupStep
        rw [if_neg (show ¬acc.2.contains it.item_id = true from by simpa using hc)]
      rw [hstep]
      have h1' : ((acc.1 ++ [it], acc.2 ++ [it.item_id]) :
          List ClothingItem × List String).2 =
          (acc.1 ++ [it]).map (fun i => i.item_id) := by simp [h1]
      have h2' : (acc.2 ++ [it.item_id]).Nodup := by
        simp [List.nodup_append, h2, hc]
      obtain ⟨a, b, c⟩ := ih _ h1' h2'
      refine ⟨a, b, fun x hx => ?_⟩
      rcases c x hx with hx1 | hx2
      · rcases List.mem_append.mp hx1 with h | h
        · exact Or.inl h
        · rw [List.mem_singleton] at h
          subst h
          exact Or.inr (List.mem_cons_self _ _)
      · exact Or.inr (List.mem_cons_of_mem it hx2)

theorem dedupById_spec (items : List ClothingItem) :
    (dedupById items).2 = (dedupById items).1.map (fun i => i.item_id) ∧
    ((dedupById items).1.map (fun i => i.item_id)).Nodup ∧
    ∀ x ∈ (dedupById items).1, x ∈ items := by
  obtain ⟨a, b, c⟩ := dedup_fold_inv items ([], []) rfl List.nodup_nil
  refine ⟨a, a ▸ b, fun x hx => ?_⟩
  rcases c x hx with h | h
  · cases h
  · exact h

theorem backfill_inv (pool : List ClothingItem) :
    ∀ (acc : List ClothingItem) (seen : List String) (total : Nat),
      seen = acc.map (fun i => i.item_id) → seen.Nodup →
      ((backfill pool acc seen total).map (fun i => i.item_id)).Nodup ∧
      ∀ x ∈ backfill pool acc seen total, x ∈ acc ∨ x ∈ pool := by
  induction pool with
  | nil =>
    intro acc seen total h1 h2
    subst h1
    exact ⟨h2, fun x hx => Or.inl hx⟩
  | cons it rest ih =>
    intro acc seen total h1 h2
    unfold backfill
    by_cases hc : it.item_id ∈ seen
    · have hct : seen.contains it.item_id = true := by simpa using hc
      simp only [hct, if_true]
      by_cases hl : acc.length == total
      · simp only [hl, if_true]
        subst h1
        exact ⟨h2, fun x hx => Or.inl hx⟩
      · have : (acc.length == total) = false := by simpa using hl
        simp only [this, Bool.false_eq_true, if_false]
        obtain ⟨a, b⟩ := ih acc seen total h1 h2
        exact ⟨a, fun x hx => (b x hx).imp id (List.mem_cons_of_mem it)⟩
    · have hcf : seen.contains it.item_id = false := by simpa using hc
      simp only [hcf, Bool.false_eq_true, if_false]
      have h1' : seen ++ [it.item_id] = (acc ++ [it]).map (fun i => i.item_id) := by
        simp [h1]
      have h2' : (seen ++ [it.item_id]).Nodup := by
        simp [List.nodup_append, h2, hc]
      by_cases hl : (acc ++ [it]).length == total
      · simp only [hl, if_true]
        rw [← h1']
        refine ⟨h2', fun x hx => ?_⟩
        rcases List.mem_append.mp hx with h | h
        · exact Or.inl h
        · rw [List.mem_singleton] at h
          subst h
          exact Or.inr (List.mem_cons_self _ _)
      · have : ((acc ++ [it]).length == total) = false := by simpa using hl
        simp only [this, Bool.false_eq_true, if_false]
        obtain ⟨a, b⟩ := ih (acc ++ [it]) (seen ++ [it.item_id]) total h1' h2'
        refine ⟨a, fun x hx => ?_⟩
        rcases b x hx with h | h
        · rcases List.mem_append.mp h with h | h
          · exact Or.inl h
          · rw [List.mem_singleton] at h
            subst h
            exact Or.inr (List.mem_cons_self _ _)
        · exact Or.inr (List.mem_cons_of_mem it h)

theorem socialSelected_subset (filtered : List ClothingItem)
    (sp : Option SocialProofContext) (n : Nat) :
    ∀ x ∈ socialSelected filtered sp n, x ∈ filtered := by
  intro x hx
  cases sp with
  | none => cases hx
  | some c =>
    obtain ⟨pr, hpr, he⟩ := sortDesc_take_fst_mem _ n x hx
    have hpr2 := (List.mem_filter.mp hpr).1
    obtain ⟨i, hi, hie⟩ := List.mem_map.mp hpr2
    rw [← he, ← hie]
    exact hi

theorem dedup_backfill_take_spec (final pool : List ClothingItem)
    (total : Nat) :
    ((((if (dedupById final).1.length < total then
          backfill pool (dedupById final).1 (dedupById final).2 total
        else (dedupById final).1).take total).map
        (fun i => i.item_id)).Nodup) ∧
    (∀ x ∈ (if (dedupById final).1.length < total then
          backfill pool (dedupById final).1 (dedupById final).2 total
        else (dedupById final).1).take total, x ∈ final ∨ x ∈ pool) ∧
    ((if (dedupById final).1.length < total then
          backfill pool (dedupById final).1 (dedupById final).2 total
        else (dedupById final).1).take total).length ≤ total := by
  obtain ⟨hmap, hnd, hsub⟩ := dedupById_spec final
  by_cases hlt : (dedupById final).1.length < total
  · simp only [hlt, if_true]
    obtain ⟨bnd, bmem⟩ := backfill_inv pool (dedupById final).1
      (dedupById final).2 total hmap (hmap ▸ hnd)
    refine ⟨?_, ?_, List.length_take_le total _⟩
    · rw [List.map_take]
      exact (List.take_sublist total _).nodup bnd
    · intro x hx
      rcases bmem x (List.take_subset total _ hx) with h | h
      · exact Or.inl (hsub x h)
      · exact Or.inr h
  · simp only [hlt, if_false]
    refine ⟨?_, ?_, List.length_take_le total _⟩
    · rw [List.map_take]
      exact (List.take_sublist total _).nodup hnd
    · intro x hx
      exact Or.inl (hsub x (List.take_subset total _ hx))

theorem select_items_spec (user : UserProfile) (filtered : List ClothingItem)
    (profile : StyleProfile) (sp : Option SocialProofContext) :
    ((selectRecommendedItems user filtered profile sp).map
      (fun i => i.item_id)).Nodup ∧
    (∀ x ∈ selectRecommendedItems user filtered profile sp, x ∈ filtered) ∧
    (selectRecommendedItems user filtered profile sp).length ≤
      MAX_RECOMMENDATIONS := by
  refine ⟨(dedup_backfill_take_spec _ _ _).1, ?_, (dedup_backfill_take_spec _ _ _).2.2⟩
  intro x hx
  rcases (dedup_backfill_take_spec _ _ _).2.1 x hx with h | h
  · simp only [List.mem_append] at h
    rcases h with (((h | h) | h) | h) | h
    · exact (List.mem_filter.mp (topScored_subset _ _ _ x h)).1
    · exact socialSelected_subset _ _ _ x h
    · exact (List.mem_filter.mp (topScored_subset _ _ _ x h)).1
    · exact (List.mem_filter.mp (topScored_subset _ _ _ x h)).1
    · have h2 := List.mem_filter.mp (List.take_subset _ _ h)
      obtain ⟨pr, hpr, he⟩ := sortDesc_fst_mem _ x h2.1
      obtain ⟨i, hi, hie⟩ := List.mem_map.mp hpr
      rw [← he, ← hie]
      exact hi
  · obtain ⟨pr, hpr, he⟩ := sortDesc_fst_mem _ x h
    obtain ⟨i, hi, hie⟩ := List.mem_map.mp hpr
    rw [← he, ← hie]
    exact hi

/-- C2: the item-recommendation list of `generate_recommendations` has no
two entries with the same item id, never includes an id from the user
closet, and has length at most `MAX_RECOMMENDATIONS`. -/
theorem generate_no_duplicates_no_closet_bounded (user : UserProfile)
    (available_items : List ClothingItem) (context : Option String)
    (sp : Option SocialProofContext) (uuidHexes : Nat → String) (now : Nat) :
    (((generate_recommendations user available_items context sp uuidHexes
        now).recommended_items).map (fun r => r.item_id)).Nodup ∧
    (∀ rec ∈ (generate_recommendations user available_items context sp
        uuidHexes now).recommended_items,
      ∀ ci ∈ user.closet_items, rec.item_id ≠ ci.item_id) ∧
    ((generate_recommendations user available_items context sp uuidHexes
        now).recommended_items).length ≤ MAX_RECOMMENDATIONS := by
  have heq : (generate_recommendations user available_items context sp
      uuidHexes now).recommended_items =
      (selectRecommendedItems user (filteredItems user available_items)
        (generate_user_style_profile user) sp).map
      (fun item => itemRecommendationFor item
        (filteredItems user available_items)
        (generate_user_style_profile user)) := rfl
  obtain ⟨hnd, hsub, hlen⟩ := select_items_spec user
    (filteredItems user available_items) (generate_user_style_profile user) sp
  refine ⟨?_, ?_, ?_⟩
  · rw [heq, List.map_map]
    exact hnd
  · intro rec hrec ci hci
    rw [heq] at hrec
    obtain ⟨item, hitem, hrece⟩ := List.mem_map.mp hrec
    have hmem := hsub item hitem
    have hnin : item.item_id ∉ user.closet_items.map (fun i => i.item_id) := by
      simpa using (List.mem_filter.mp hmem).2
    intro hne
    apply hnin
    have hre : rec.item_id = item.item_id := by rw [← hrece]; rfl
    rw [← hre, hne]
    exact List.mem_map_of_mem (fun i => i.item_id) hci
  · rw [heq, List.length_map]
    exact hlen

/-! ## Claim C4: determinism modulo uuid draws and timestamps -/

theorem outfit_strip_uuid_free (b : ClothingItem) (all : List ClothingItem)
    (p : StyleProfile) (occ : String) (c : Option SocialProofContext)
    (uu1 uu2 : String) (nn1 nn2 : Nat) :
    (generate_outfit_recommendation b all p occ c uu1 nn1).map stripOutfit =
    (generate_outfit_recommendation b all p occ c uu2 nn2).map stripOutfit := by
  unfold generate_outfit_recommendation
  cases outfitCore b all p occ c <;> rfl

theorem buildOutfits_fold_strip (anchors : List (Nat × ClothingItem))
    (filtered : List ClothingItem) (p : StyleProfile) (u1 u2 : Nat → String)
    (n1 n2 : Nat) :
    ∀ acc1 acc2 : List OutfitRecommendation,
      acc1.map stripOutfit = acc2.map stripOutfit →
      (anchors.foldl (buildOutfitStep filtered p u1 n1) acc1).map stripOutfit =
      (anchors.foldl (buildOutfitStep filtered p u2 n2) acc2).map stripOutfit := by
  induction anchors with
  | nil => intro acc1 acc2 h; exact h
  | cons a t ih =>
    intro acc1 acc2 h
    rw [List.foldl_cons, List.foldl_cons]
    apply ih
    unfold buildOutfitStep
    dsimp only
    have hs := outfit_strip_uuid_free a.2 filtered p
      (a.2.occasion_tags.head?.getD "Everyday Casual") none (u1 a.1) (u2 a.1)
      n1 n2
    cases ho1 : generate_outfit_recommendation a.2 filtered p
        (a.2.occasion_tags.head?.getD "Everyday Casual") none (u1 a.1) n1 with
    | none =>
      cases ho2 : generate_outfit_recommendation a.2 filtered p
          (a.2.occasion_tags.head?.getD "Everyday Casual") none (u2 a.1) n2 with
      | none => exact h
      | some o2 => rw [ho1, ho2] at hs; simp at hs
    | some o1 =>
      cases ho2 : generate_outfit_recommendation a.2 filtered p
          (a.2.occasion_tags.head?.getD "Everyday Casual") none (u2 a.1) n2 with
      | none => rw [ho1, ho2] at hs; simp at hs
      | some o2 =>
        rw [ho1, ho2] at hs
        simp only [Option.map] at hs
        injection hs with hs
        have hscore : o1.score = o2.score := by
          have := congrArg (fun x => x.2.1) hs
          simpa [stripOutfit] using this
        dsimp only
        by_cases hgt : mkRat 6 10 < o1.score
        · rw [if_pos hgt, if_pos (hscore ▸ hgt)]
          simp only [List.map_append, h]
          simpa [stripOutfit, Prod.ext_iff] using hs
        · rw [if_neg hgt, if_neg (hscore ▸ hgt)]
          exact h

set_option maxHeartbeats 1000000 in
/-- C4 amended: two calls to `generate_recommendations` with identical
user, catalog, context, and social-proof inputs produce identical content
except for timestamps and the freshly drawn outfit uuids: the user id, the
item recommendations (ids, scores, match reasons, complementary items), the
echoed context, and the outfits stripped of their `outfit_id` and
`created_at` all coincide, for arbitrary uuid supplies and clock values. -/
theorem generate_deterministic_modulo_uuid_and_time (user : UserProfile)
    (available_items : List ClothingItem) (context : Option String)
    (sp : Option SocialProofContext) (u1 u2 : Nat → String) (n1 n2 : Nat) :
    stripResponse (generate_recommendations user available_items context sp u1 n1) =
    stripResponse (generate_recommendations user available_items context sp u2 n2) := by
  unfold stripResponse
  simp only [Prod.mk.injEq]
  refine ⟨rfl, rfl, ?_, rfl⟩
  exact buildOutfits_fold_strip _ _ _ u1 u2 n1 n2 [] [] rfl

set_option maxHeartbeats 2000000 in
/-- C4 counterexample: the outfit ids are freshly drawn uuids, so two calls
with identical user, catalog, and context inputs (differing only in the
uuid draws, as two real calls do) return different outfit ids: on a
three-item catalog whose items all score above 0.6, three outfits are
produced and their ids follow the draws. -/
theorem generate_outfit_ids_follow_uuid_draws :
    (generate_recommendations { user_id := "u" }
      [{ item_id := "a", category := "tops", colors := ["black"],
         pattern := some "solid", occasion_tags := ["casual"],
         trending_score := 20 },
       { item_id := "b", category := "bottoms", colors := ["black"],
         pattern := some "solid", occasion_tags := ["casual"],
         trending_score := 20 },
       { item_id := "c", category := "shoes", colors := ["black"],
         pattern := some "solid", occasion_tags := ["casual"],
         trending_score := 20 }]
      (some "casual") none (fun _ => "aaaaaaaa") 0).recommended_outfits.map
      (fun o => o.outfit_id) ≠
    (generate_recommendations { user_id := "u" }
      [{ item_id := "a", category := "tops", colors := ["black"],
         pattern := some "solid", occasion_tags := ["casual"],
         trending_score := 20 },
       { item_id := "b", category := "bottoms", colors := ["black"],
         pattern := some "solid", occasion_tags := ["casual"],
         trending_score := 20 },
       { item_id := "c", category := "shoes", colors := ["black"],
         pattern := some "solid", occasion_tags := ["casual"],
         trending_score := 20 }]
      (some "casual") none (fun _ => "bbbbbbbb") 0).recommended_outfits.map
      (fun o => o.outfit_id) := by decide

/-! ## Outfit assembly: size and color-compatibility (C5) -/

theorem coreOf_socialPart (item : ClothingItem) (ctx : Option SocialProofContext) :
    coreOf (socialPart item ctx).2.2 = coreOf item := by
  cases ctx with
  | none => rfl
  | some c =>
      simp only [socialPart]
      split
      · dsimp only
        split
        · rfl
        · rfl
      · rfl

theorem coreOf_calc (item : ClothingItem) (profile : StyleProfile)
    (ctx : Option SocialProofContext) :
    coreOf (calculate_item_match_score item profile ctx).2.2 = coreOf item := by
  unfold calculate_item_match_score
  split
  · rfl
  · simp only [calcNoVeto]
    cases ctx with
    | none => exact coreOf_socialPart item none
    | some c =>
        dsimp only
        split
        · cases hsp : ((socialPart item (some c)).2.2).social_proof_match with
          | some old =>
              simp only [hsp]
              exact coreOf_socialPart item (some c)
          | none =>
              simp only [hsp]
              exact coreOf_socialPart item (some c)
        · exact coreOf_socialPart item (some c)

theorem list_set_self {α : Type} (l : List α) (i : Nat) (x : α)
    (h : l[i]? = some x) : l.set i x = l := by
  obtain ⟨hlt, hx⟩ := List.getElem?_eq_some.mp h
  apply List.ext_getElem
  · simp
  · intro n h1 h2
    rw [List.getElem_set]
    split
    · next heq => subst heq; exact hx.symm
    · rfl

theorem coreOf_same_id (a b : ClothingItem) (h : coreOf a = coreOf b) :
    a.item_id = b.item_id := by
  have h2 := congrArg ClothingItem.item_id h
  exact h2

theorem coreOf_same_colors (a b : ClothingItem) (h : coreOf a = coreOf b) :
    a.colors = b.colors := by
  have h2 := congrArg ClothingItem.colors h
  exact h2

theorem lookupById_map_core (l1 l2 : List ClothingItem)
    (h : l1.map coreOf = l2.map coreOf) (id : String) :
    Option.map coreOf (lookupById l1 id) = Option.map coreOf (lookupById l2 id) := by
  induction l1 generalizing l2 with
  | nil =>
      cases l2 with
      | nil => rfl
      | cons y ys => simp at h
  | cons x xs ih =>
      cases l2 with
      | nil => simp at h
      | cons y ys =>
          simp only [List.map_cons, List.cons.injEq] at h
          obtain ⟨hxy, ht⟩ := h
          have hid : x.item_id = y.item_id := coreOf_same_id x y hxy
          by_cases hp : (x.item_id == id) = true
          · unfold lookupById
            rw [List.find?_cons_of_pos xs hp,
              List.find?_cons_of_pos ys (by rw [← hid]; exact hp)]
            exact congrArg some hxy
          · unfold lookupById
            rw [List.find?_cons_of_neg xs hp,
              List.find?_cons_of_neg ys (by rw [← hid]; exact hp)]
            exact ih ys ht

theorem lookupById_self (all : List ClothingItem)
    (hnd : (all.map ClothingItem.item_id).Nodup)
    (a : ClothingItem) (ha : a ∈ all) :
    lookupById all a.item_id = some a := by
  induction all with
  | nil => cases ha
  | cons x xs ih =>
      simp only [List.map_cons, List.nodup_cons] at hnd
      obtain ⟨hx, hxs⟩ := hnd
      rcases List.mem_cons.mp ha with h | h
      · subst h
        unfold lookupById
        rw [List.find?_cons_of_pos xs (by simp)]
      · have hne : ¬(x.item_id == a.item_id) = true := by
          intro hb
          apply hx
          rw [show x.item_id = a.item_id from by simpa using hb]
          exact List.mem_map_of_mem ClothingItem.item_id h
        unfold lookupById
        rw [List.find?_cons_of_neg xs hne]
        exact ih hxs h

theorem scoreOutfitCandidate_ok (all_items : List ClothingItem)
    (hnd : (List.map ClothingItem.item_id all_items).Nodup)
    (profile : StyleProfile) (ctx : Option SocialProofContext)
    (ids : List String) (st : List ClothingItem × List (ClothingItem × Rat))
    (idx : Nat) (hcore : st.1.map coreOf = all_items.map coreOf)
    (hsc : scoredOk all_items ids st.2) :
    (scoreOutfitCandidate profile ctx ids st idx).1.map coreOf
        = all_items.map coreOf ∧
    scoredOk all_items ids (scoreOutfitCandidate profile ctx ids st idx).2 := by
  unfold scoreOutfitCandidate
  cases hit : st.1[idx]? with
  | none => exact ⟨hcore, hsc⟩
  | some item =>
      dsimp only
      split
      · exact ⟨hcore, hsc⟩
      · next hfail =>
          have hcc : ((ids.filterMap fun oid => lookupById st.1 oid).all
              fun oi => are_colors_compatible oi.colors item.colors) = true := by
            by_contra hx
            apply hfail
            have hf : ((ids.filterMap fun oid => lookupById st.1 oid).all
                fun oi => are_colors_compatible oi.colors item.colors) = false :=
              Bool.eq_false_iff.mpr hx
            simp [hf]
          have hlt : idx < st.1.length := (List.getElem?_eq_some.mp hit).1
          have hlen : st.1.length = all_items.length := by
            have h2 := congrArg List.length hcore
            simpa using h2
          have hltA : idx < all_items.length := hlen ▸ hlt
          have hAidx : all_items[idx]? = some all_items[idx] :=
            List.getElem?_eq_getElem hltA
          have hcoreEq : coreOf item = coreOf all_items[idx] := by
            have h1 := congrArg (fun l => l[idx]?) hcore
            simp only [List.getElem?_map] at h1
            rw [hit, hAidx] at h1
            simpa using h1
          have hci : coreOf ((calculate_item_match_score item profile ctx).2.2)
              = coreOf item := coreOf_calc item profile ctx
          constructor
          · have hgm : (List.map coreOf st.1)[idx]? = some (coreOf item) := by
              rw [List.getElem?_map, hit]
              rfl
            rw [List.map_set, hci, list_set_self _ _ _ hgm]
            exact hcore
          · intro pr hpr id1 hid1 a b ha hb
            rcases List.mem_append.mp hpr with hin | hnew
            · exact hsc pr hin id1 hid1 a b ha hb
            · have hpreq := List.mem_singleton.mp hnew
              have hpr1 : pr.1 = (calculate_item_match_score item profile ctx).2.2 := by
                rw [hpreq]
              have hidEq : pr.1.item_id = (all_items[idx]).item_id := by
                rw [hpr1]
                have h2 := congrArg ClothingItem.item_id (hci.trans hcoreEq)
                exact h2
              have hbA : lookupById all_items pr.1.item_id
                  = some (all_items[idx]) := by
                rw [hidEq]
                exact lookupById_self all_items hnd (all_items[idx])
                  (List.getElem_mem hltA)
              have hbeq : b = all_items[idx] := by
                have h2 := hb.symm.trans hbA
                injection h2
              have hbcolors : b.colors = item.colors := by
                rw [hbeq]
                have h2 := congrArg ClothingItem.colors hcoreEq
                exact h2.symm
              have hmapc := lookupById_map_core st.1 all_items hcore id1
              rw [ha] at hmapc
              cases hA : lookupById st.1 id1 with
              | none => rw [hA] at hmapc; simp at hmapc
              | some a1 =>
                  rw [hA] at hmapc
                  have hca : coreOf a1 = coreOf a := by simpa using hmapc
                  have ha1mem : a1 ∈ ids.filterMap
                      (fun oid => lookupById st.1 oid) :=
                    List.mem_filterMap.mpr ⟨id1, hid1, hA⟩
                  have hcomp := List.all_eq_true.mp hcc a1 ha1mem
                  have hacolors : a.colors = a1.colors := by
                    have h2 := congrArg ClothingItem.colors hca
                    exact h2.symm
                  rw [hacolors, hbcolors]
                  exact hcomp

theorem scoreFold_ok (all_items : List ClothingItem)
    (hnd : (List.map ClothingItem.item_id all_items).Nodup)
    (profile : StyleProfile) (ctx : Option SocialProofContext)
    (ids : List String) (idxs : List Nat)
    (st : List ClothingItem × List (ClothingItem × Rat))
    (hcore : st.1.map coreOf = all_items.map coreOf)
    (hsc : scoredOk all_items ids st.2) :
    (idxs.foldl (scoreOutfitCandidate profile ctx ids) st).1.map coreOf
        = all_items.map coreOf ∧
    scoredOk all_items ids
      (idxs.foldl (scoreOutfitCandidate profile ctx ids) st).2 := by
  induction idxs generalizing st with
  | nil => exact ⟨hcore, hsc⟩
  | cons i is ih =>
      simp only [List.foldl_cons]
      obtain ⟨h1, h2⟩ :=
        scoreOutfitCandidate_ok all_items hnd profile ctx ids st i hcore hsc
      exact ih _ h1 h2

theorem head?_mem {α : Type} (l : List α) (a : α) (h : l.head? = some a) :
    a ∈ l := by
  cases l with
  | nil => cases h
  | cons x xs =>
      injection h with h
      rw [← h]
      exact List.mem_cons_self _ _

theorem outfitStep_ok (all_items : List ClothingItem)
    (hnd : (List.map ClothingItem.item_id all_items).Nodup)
    (profile : StyleProfile) (ctx : Option SocialProofContext)
    (st : List ClothingItem × List String × List String) (cat : String)
    (hcore : st.1.map coreOf = all_items.map coreOf)
    (hpw : st.2.1.Pairwise (pairColorCompat all_items)) :
    (outfitStep profile ctx st cat).1.map coreOf = all_items.map coreOf ∧
    (outfitStep profile ctx st cat).2.1.Pairwise (pairColorCompat all_items) := by
  unfold outfitStep
  dsimp only
  have hvac : scoredOk all_items st.2.1 ([] : List (ClothingItem × Rat)) := by
    intro pr hpr
    exact absurd hpr (List.not_mem_nil pr)
  split
  · exact ⟨hcore, hpw⟩
  · split
    · exact ⟨(scoreFold_ok all_items hnd profile ctx st.2.1 _ (st.1, [])
        hcore hvac).1, hpw⟩
    · split
      · next best heq =>
          constructor
          · exact (scoreFold_ok all_items hnd profile ctx st.2.1 _ (st.1, [])
              hcore hvac).1
          · dsimp only
            rw [List.pairwise_append]
            refine ⟨hpw, List.pairwise_singleton _ _, ?_⟩
            intro id1 h1 id2 h2
            have hid2 : id2 = best.1.item_id := List.mem_singleton.mp h2
            subst hid2
            have hmem1 := head?_mem _ _ heq
            have hmem2 := (sortByScoreDesc_perm _).mem_iff.mp hmem1
            exact (scoreFold_ok all_items hnd profile ctx st.2.1 _ (st.1, [])
              hcore hvac).2 best hmem2 id1 h1
      · exact ⟨(scoreFold_ok all_items hnd profile ctx st.2.1 _ (st.1, [])
          hcore hvac).1, hpw⟩

theorem outfitFold_ok (all_items : List ClothingItem)
    (hnd : (List.map ClothingItem.item_id all_items).Nodup)
    (profile : StyleProfile) (ctx : Option SocialProofContext)
    (cats : List String) (st : List ClothingItem × List String × List String)
    (hcore : st.1.map coreOf = all_items.map coreOf)
    (hpw : st.2.1.Pairwise (pairColorCompat all_items)) :
    (cats.foldl (outfitStep profile ctx) st).1.map coreOf
        = all_items.map coreOf ∧
    (cats.foldl (outfitStep profile ctx) st).2.1.Pairwise
        (pairColorCompat all_items) := by
  induction cats generalizing st with
  | nil => exact ⟨hcore, hpw⟩
  | cons c cs ih =>
      simp only [List.foldl_cons]
      obtain ⟨h1, h2⟩ := outfitStep_ok all_items hnd profile ctx st c hcore hpw
      exact ih _ h1 h2

/-- C5: whenever `generate_outfit_recommendation` returns an outfit rather
than `none` (for a catalog whose item ids are distinct), the outfit holds at
least 3 item ids, and they are pairwise color-compatible in order of
addition: every member added beyond the anchor passed the hard
`are_colors_compatible` filter against every member already in the outfit,
so any two members the ids denote in the catalog have compatible colors. -/
theorem outfit_min_items_and_color_compat (base_item : ClothingItem)
    (all_items : List ClothingItem) (profile : StyleProfile)
    (occasion : String) (ctx : Option SocialProofContext)
    (uuidHex : String) (now : Nat) (o : OutfitRecommendation)
    (hnd : (List.map ClothingItem.item_id all_items).Nodup)
    (h : generate_outfit_recommendation base_item all_items profile occasion
      ctx uuidHex now = some o) :
    3 ≤ o.items.length ∧ o.items.Pairwise (pairColorCompat all_items) := by
  unfold generate_outfit_recommendation at h
  cases hc : outfitCore base_item all_items profile occasion ctx with
  | none => rw [hc] at h; cases h
  | some parts =>
      rw [hc] at h
      dsimp only at h
      injection h with h
      have hoi : o.items = parts.1 := by rw [← h]
      simp only [outfitCore] at hc
      generalize hg : [strLower base_item.category] ++
          (if optTruthy base_item.subcategory then
            [strLower (base_item.subcategory.getD "")] else []) = cats0 at hc
      generalize hf : (essentialCategoriesFor occasion cats0).foldl
          (outfitStep profile ctx) (all_items, [base_item.item_id], cats0)
          = fin at hc
      by_cases h3 : 3 ≤ fin.2.1.length
      · rw [if_pos h3] at hc
        injection hc with hc
        have hp1 : parts.1 = fin.2.1 := by rw [← hc]
        have hfold := outfitFold_ok all_items hnd profile ctx
          (essentialCategoriesFor occasion cats0)
          (all_items, [base_item.item_id], cats0) rfl
          (List.pairwise_singleton _ _)
        rw [hf] at hfold
        constructor
        · rw [hoi, hp1]
          exact h3
        · rw [hoi, hp1]
          exact hfold.2
      · rw [if_neg h3] at hc
        cases hc

set_option maxHeartbeats 1000000 in
/-- C5 witness: on the three-item black-solid catalog `w5_items` the
assembler returns the outfit `w5_outfit`, which has 3 members, pairwise
color-compatible. -/
theorem outfit_min_items_and_color_compat_witness :
    generate_outfit_recommendation
      { item_id := "wa", category := "tops", colors := ["black"],
        pattern := some "solid", occasion_tags := ["casual"] }
      w5_items [] "casual" none "cafe0000" 5 = some w5_outfit ∧
    3 ≤ w5_outfit.items.length ∧
    w5_outfit.items.Pairwise (pairColorCompat w5_items) := by
  have hnd : (List.map ClothingItem.item_id w5_items).Nodup := by decide
  have h : generate_outfit_recommendation
      { item_id := "wa", category := "tops", colors := ["black"],
        pattern := some "solid", occasion_tags := ["casual"] }
      w5_items [] "casual" none "cafe0000" 5 = some w5_outfit := by decide
  exact ⟨h, outfit_min_items_and_color_compat _ w5_items [] "casual" none
    "cafe0000" 5 w5_outfit hnd h⟩
